import Mathlib

/-!
# Verification of the kubectl MCP server (`mcp_server.py`)

This file shallowly embeds the tool functions registered by
`MCPServer.setup_tools` in `kubernetes-mcp/mcp_server.py`.

Modelling conventions:
* Every wrapped effect (a Kubernetes client call, a `subprocess` invocation,
  `json.loads`, reading the kubeconfig file) is an outcome recorded in an
  environment `Env`; an exception raised by the wrapped code is an `error` /
  `fail` outcome.  A tool is then a total Lean function from `Env` (plus its
  arguments) to the dictionary it returns, so "the tool does not propagate
  the exception" is captured by totality plus the shape of the result.
* Python dictionaries returned by the tools are association lists
  `List (String × Jval)` in the key order the source writes them.
* Each tool also produces a trace of the external actions it performed:
  Kubernetes API requests (`Action.api`), synchronous subprocess invocations
  that wait for completion (`Action.run`, i.e. `subprocess.check_output` /
  `subprocess.run`) and detached subprocess spawns (`Action.spawn`, i.e.
  `subprocess.Popen`).  A command that raises `FileNotFoundError` never
  started, so it is not recorded.
* The Service objects manipulated by `expose_deployment_with_service` live in
  an explicit cluster state `ClusterSvc` keyed by (namespace, name), with
  `create` / `patch` given their Kubernetes semantics (create fails with 409
  on an existing service, patch fails with 404 on a missing one and otherwise
  replaces the stored object).  `Env.read_service_fault` optionally injects
  an `ApiException` into the service read, mirroring the `except
  client.ApiException` handler around `read_namespaced_service`.
* Python string truthiness (`if namespace:`) is modelled by `truthy?`,
  `repo.split('=')` by the structural `pySplitEq`, and exception rendering
  (`str(e)`) by canonical strings, since no claim depends on the exact text
  of a Python exception message.
-/

set_option autoImplicit false

namespace KubectlMcp

/-- JSON-like values, the codomain of the result dictionaries. -/
inductive Jval where
  | jnull
  | jbool (b : Bool)
  | jnum (n : Int)
  | jstr (s : String)
  | jarr (xs : List Jval)
  | jobj (kvs : List (String × Jval))
  deriving Repr

/-- Label dictionaries (e.g. a Deployment's `spec.selector.match_labels`). -/
abbrev Labels := List (String × String)

/-- A Kubernetes `ApiException`: HTTP status plus reason and body text. -/
structure ApiErr where
  status : Int
  reason : String
  body : String
  deriving Repr, DecidableEq

/-- Canonical rendering of `str(e)` for an `ApiException`. -/
def ApiErr.str (e : ApiErr) : String :=
  "(" ++ toString e.status ++ ") " ++ e.reason

/-- Outcome of a `subprocess.check_output` / `subprocess.run(check=True)` call. -/
inductive CmdRes where
  | ok (stdout : String)
  | fail (stderr : String)
  | notFound
  deriving Repr, DecidableEq

/-- Canonical `str(e)` for the exception a failed subprocess call raises. -/
def cmdExcMsg : CmdRes → String
  | CmdRes.ok s => s
  | CmdRes.fail e => "CalledProcessError: " ++ e
  | CmdRes.notFound => "FileNotFoundError"

/-- One external action performed by a tool. -/
inductive Action where
  | api (name : String) (args : List String)
  | run (argv : List String)
  | spawn (argv : List String)
  deriving Repr, DecidableEq

/-- What a tool call produces: its result dictionary and the external actions
it performed, in order. -/
structure ToolOut where
  res : List (String × Jval)
  trace : List Action
  deriving Repr

/-- A pod item as consumed by `get_pods` (fields the source reads). -/
structure PodItem where
  name : String
  ns : String
  phase : Option String
  pod_ip : Option String

/-- A service item as consumed by `get_services`. -/
structure SvcItem where
  name : String
  ns : String
  svc_type : Option String
  cluster_ip : Option String

/-- A node item as consumed by `get_nodes`. -/
structure NodeItem where
  name : String
  conditions : List String
  addresses : List String

/-- A ConfigMap item as consumed by `get_configmaps`. -/
structure CmItem where
  name : String
  ns : String
  data : Option (List (String × String))

/-- A Secret item as consumed by `get_secrets`. -/
structure SecretItem where
  name : String
  ns : String
  secret_type : Option String

/-- An Event item as consumed by `get_events` / `get_pod_events`. -/
structure EventItem where
  name : String
  ns : String
  ev_type : Option String
  reason : Option String
  message : Option String
  last_timestamp : Option String

/-- A deployment list item as consumed by `get_deployments`. -/
structure DeployItem where
  name : String
  ns : String
  status_replicas : Option Int

/-- The deployment object returned by `read_namespaced_deployment`
(fields the source reads or mutates). -/
structure DeployObj where
  match_labels : Option Labels
  spec_replicas : Option Int
  deriving Repr, DecidableEq

/-- The `V1Deployment` body built by `create_deployment`. -/
structure DeployBody where
  name : String
  replicas : Int
  match_labels : Labels
  template_labels : Labels
  container_name : String
  container_image : String

/-- Pod status as consumed by `check_pod_health`. -/
structure PodStatus where
  phase : Option String
  conditions : Option (List String)

/-- One port entry of the `V1Service` body built by
`expose_deployment_with_service`. -/
structure SvcPort where
  protocol : String
  port : Option Int
  target_port : Option Int
  deriving Repr, DecidableEq

/-- The `V1Service` body built by `expose_deployment_with_service`
(fields the source sets or reads back).  The cluster never assigns a
cluster IP in this model, so `cluster_ip` stays `none` for created bodies. -/
structure Service where
  name : Option String
  ns : Option String
  app_label : Option String
  selector : Labels
  ports : List SvcPort
  svc_type : Option String
  cluster_ip : Option String := none
  deriving Repr, DecidableEq

/-- The services stored in the cluster, keyed by (namespace, name). -/
abbrev ClusterSvc := List ((Option String × Option String) × Service)

/-- Outcomes of every wrapped call a tool can make. -/
structure Env where
  load_kube_config : Except ApiErr Unit
  list_namespaced_pod : String → Except ApiErr (List PodItem)
  list_pod_for_all_namespaces : Except ApiErr (List PodItem)
  list_namespace : Except ApiErr (List String)
  list_namespaced_service : String → Except ApiErr (List SvcItem)
  list_service_for_all_namespaces : Except ApiErr (List SvcItem)
  read_namespaced_deployment : Option String → Option String → Except ApiErr DeployObj
  read_service_fault : Option ApiErr
  list_node : Except ApiErr (List NodeItem)
  list_namespaced_config_map : String → Except ApiErr (List CmItem)
  list_config_map_for_all_namespaces : Except ApiErr (List CmItem)
  list_namespaced_secret : String → Except ApiErr (List SecretItem)
  list_secret_for_all_namespaces : Except ApiErr (List SecretItem)
  list_namespaced_role : String → Except ApiErr (List String)
  list_role_for_all_namespaces : Except ApiErr (List String)
  list_cluster_role : Except ApiErr (List String)
  list_namespaced_event : String → Option String → Except ApiErr (List EventItem)
  list_event_for_all_namespaces : Except ApiErr (List EventItem)
  get_api_resources_call : Except ApiErr Unit
  read_namespaced_pod : String → String → Except ApiErr PodStatus
  list_namespaced_deployment : String → Except ApiErr (List DeployItem)
  list_deployment_for_all_namespaces : Except ApiErr (List DeployItem)
  create_namespaced_deployment : DeployBody → String → Except ApiErr Unit
  patch_namespaced_deployment : String → String → DeployObj → Except ApiErr Unit
  delete_namespaced_pod : String → String → Except ApiErr Unit
  delete_namespaced_deployment : String → String → Except ApiErr Unit
  delete_namespaced_service : String → String → Except ApiErr Unit
  read_namespaced_pod_log : String → String → Option String → Option Int → Except ApiErr String
  checkOutput : List String → CmdRes
  popen : List String → Except String Int
  whichFound : String → Bool
  json_loads : String → Option Jval
  kubeconfig_exists : Bool
  kubeconfig_contexts : Except ApiErr (List String)
  tmp_values_file : String

/-- `{"success": True, ...rest}`. -/
def mkOk (rest : List (String × Jval)) : List (String × Jval) :=
  ("success", Jval.jbool true) :: rest

/-- `{"success": False, "error": msg}`. -/
def mkErr (msg : String) : List (String × Jval) :=
  [("success", Jval.jbool false), ("error", Jval.jstr msg)]

/-- First value bound to a key in a result dictionary. -/
def lookupKey (k : String) : List (String × Jval) → Option Jval
  | [] => none
  | (k2, v) :: rest => if k2 = k then some v else lookupKey k rest

/-- Whether a result dictionary binds a key. -/
def hasKey (k : String) (d : List (String × Jval)) : Bool :=
  (lookupKey k d).isSome

/-- Python truthiness of an optional string argument (`if namespace:`):
returns the string when it is present and non-empty. -/
def truthy? : Option String → Option String
  | some s => if s = "" then none else some s
  | none => none

/-- Python truthiness of an optional dict argument (`if values:`). -/
def dictTruthy : Option (List (String × Jval)) → Bool
  | some l => !l.isEmpty
  | none => false

/-- Python falsiness of fetched selector labels (`if not selector_labels:`). -/
def labelsFalsy : Option Labels → Bool
  | some l => l.isEmpty
  | none => true

/-- How Python renders an optional string inside an f-string (`None` or the
string itself). -/
def optStr : Option String → String
  | some s => s
  | none => "None"

/-- Python `str.split(sep)` for a one-character separator, structurally on the
character list (`"".split('=') == ['']`, `"a=b".split('=') == ['a','b']`). -/
def splitOnChar (sep : Char) : List Char → List (List Char)
  | [] => [[]]
  | c :: rest =>
    if c = sep then [] :: splitOnChar sep rest
    else
      match splitOnChar sep rest with
      | [] => [[c]]
      | g :: gs => (c :: g) :: gs

/-- `repo.split('=')`. -/
def pySplitEq (s : String) : List String :=
  (splitOnChar '=' s.data).map fun cs => String.mk cs

/-- Python `'/' in chart`. -/
def pyContainsSlash (s : String) : Bool :=
  s.data.any fun c => c = '/'

/-- `MCPServer._check_tool_availability`: `shutil.which` first, then a version
subprocess for `kubectl` / `helm`.  Returns the boolean and the commands run. -/
def check_tool_availability (env : Env) (tool : String) : Bool × List Action :=
  if env.whichFound tool then
    if tool = "kubectl" then
      match env.checkOutput ["kubectl", "version", "--client"] with
      | CmdRes.ok _ => (true, [Action.run ["kubectl", "version", "--client"]])
      | CmdRes.fail _ => (false, [Action.run ["kubectl", "version", "--client"]])
      | CmdRes.notFound => (false, [])
    else if tool = "helm" then
      match env.checkOutput ["helm", "version"] with
      | CmdRes.ok _ => (true, [Action.run ["helm", "version"]])
      | CmdRes.fail _ => (false, [Action.run ["helm", "version"]])
      | CmdRes.notFound => (false, [])
    else (true, [])
  else (false, [])

/-- First service stored under a (namespace, name) key. -/
def lookupSvc : ClusterSvc → (Option String × Option String) → Option Service
  | [], _ => none
  | (k2, s) :: rest, k => if k2 = k then some s else lookupSvc rest k

/-- Replace every entry stored under a key. -/
def replaceSvc : ClusterSvc → (Option String × Option String) → Service → ClusterSvc
  | [], _, _ => []
  | (k2, s) :: rest, k, v =>
    (if k2 = k then (k, v) else (k2, s)) :: replaceSvc rest k v

/-- `read_namespaced_service` against the modelled cluster (missing service
raises `ApiException(404)`); `Env.read_service_fault` injects other failures. -/
def read_namespaced_service_st (env : Env) (st : ClusterSvc)
    (ns name : Option String) : Except ApiErr Service :=
  match env.read_service_fault with
  | some e => Except.error e
  | none =>
    match lookupSvc st (ns, name) with
    | some s => Except.ok s
    | none => Except.error ⟨404, "Not Found", "service not found"⟩

/-- `create_namespaced_service`: 409 on an existing service, otherwise store
the body and return it. -/
def create_namespaced_service_st (st : ClusterSvc) (ns : Option String)
    (body : Service) : Except ApiErr (Service × ClusterSvc) :=
  match lookupSvc st (ns, body.name) with
  | some _ => Except.error ⟨409, "AlreadyExists", "service exists"⟩
  | none => Except.ok (body, st ++ [((ns, body.name), body)])

/-- `patch_namespaced_service`: 404 on a missing service, otherwise replace
the stored object with the body and return it. -/
def patch_namespaced_service_st (st : ClusterSvc) (ns name : Option String)
    (body : Service) : Except ApiErr (Service × ClusterSvc) :=
  match lookupSvc st (ns, name) with
  | none => Except.error ⟨404, "Not Found", "service not found"⟩
  | some _ => Except.ok (body, replaceSvc st (ns, name) body)

/-- JSON rendering of an optional string (`None` becomes `null`). -/
def jOpt : Option String → Jval
  | some s => Jval.jstr s
  | none => Jval.jnull

/-- JSON rendering of a label dictionary. -/
def jLabels (l : Labels) : Jval :=
  Jval.jobj (l.map fun kv => (kv.1, Jval.jstr kv.2))

/-- The `V1Service` body built at lines 193-212 of the source. -/
def expose_service_body (deployment_name service_name : Option String)
    (target_port : Option Int) (protocol : String) (service_type : Option String)
    (ns : Option String) (port : Option Int) (sel : Labels) : Service :=
  { name := service_name
    ns := ns
    app_label := deployment_name
    selector := sel
    ports := [{ protocol := protocol
                port := match port with
                        | none => target_port
                        | some p => some p
                target_port := target_port }]
    svc_type := service_type }

/-- The success dictionary built at lines 231-242 of the source. -/
def expose_success_res (deployment_name service_name : Option String)
    (service_type : Option String) (created : Service) : List (String × Jval) :=
  mkOk
    [("message", Jval.jstr ("Service '" ++ optStr service_name ++ "' of type '" ++
        optStr service_type ++ "' created/updated successfully for Deployment '" ++
        optStr deployment_name ++ "'.")),
     ("service", Jval.jobj
       [("name", jOpt created.name),
        ("namespace", jOpt created.ns),
        ("type", jOpt created.svc_type),
        ("cluster_ip", jOpt created.cluster_ip),
        ("ports", Jval.jarr (created.ports.map fun p => Jval.jobj
          [("port", match p.port with | some n => Jval.jnum n | none => Jval.jnull),
           ("target_port", match p.target_port with
                           | some n => Jval.jnum n
                           | none => Jval.jnull),
           ("protocol", Jval.jstr p.protocol)])),
        ("selector", jLabels created.selector)])]

/-- The ValueError message raised at line 173 of the source. -/
def noSelectorMsg (deployment_name : Option String) : String :=
  "No selector labels found for Deployment '" ++ optStr deployment_name ++
    "' or provided manually. Cannot create Service."

/-- `expose_deployment_with_service` (source lines 129-255). -/
def expose_deployment_with_service (env : Env) (st : ClusterSvc)
    (deployment_name service_name : Option String) (target_port : Option Int)
    (protocol : String) (service_type : Option String) (ns : Option String)
    (port : Option Int) (selector_labels : Option Labels) :
    ToolOut × ClusterSvc :=
  match env.load_kube_config with
  | Except.error e => (⟨mkErr e.str, []⟩, st)
  | Except.ok _ =>
    let readAct := Action.api "read_namespaced_deployment" [optStr deployment_name, optStr ns]
    match env.read_namespaced_deployment deployment_name ns with
    | Except.error e =>
      if e.status = 404 then
        (⟨mkErr ("Deployment '" ++ optStr deployment_name ++ "' not found in namespace '" ++
            optStr ns ++ "'."), [readAct]⟩, st)
      else
        (⟨mkErr ("Error reading deployment: " ++ e.str), [readAct]⟩, st)
    | Except.ok dep =>
      let selRes : Except String Labels :=
        match selector_labels with
        | none =>
          match dep.match_labels with
          | none => Except.error (noSelectorMsg deployment_name)
          | some l =>
            if l.isEmpty then Except.error (noSelectorMsg deployment_name)
            else Except.ok l
        | some l => Except.ok l
      match selRes with
      | Except.error msg =>
        (⟨mkErr ("Failed to determine selector labels: " ++ msg), [readAct]⟩, st)
      | Except.ok sel =>
        let body := expose_service_body deployment_name service_name target_port
          protocol service_type ns port sel
        let readSvcAct := Action.api "read_namespaced_service"
          [optStr service_name, optStr ns]
        match read_namespaced_service_st env st ns service_name with
        | Except.error e =>
          if e.status = 404 then
            -- service absent: create it
            match create_namespaced_service_st st ns body with
            | Except.ok (created, st2) =>
              (⟨expose_success_res deployment_name service_name service_type created,
                 [readAct, readSvcAct,
                  Action.api "create_namespaced_service" [optStr service_name, optStr ns]]⟩,
               st2)
            | Except.error e2 =>
              (⟨mkErr ("Kubernetes API error: " ++ e2.reason ++ " - " ++ e2.body),
                 [readAct, readSvcAct,
                  Action.api "create_namespaced_service" [optStr service_name, optStr ns]]⟩,
               st)
          else
            -- non-404 read error is re-raised and caught by the ApiException handler
            (⟨mkErr ("Kubernetes API error: " ++ e.reason ++ " - " ++ e.body),
               [readAct, readSvcAct]⟩, st)
        | Except.ok _ =>
          match patch_namespaced_service_st st ns service_name body with
          | Except.ok (created, st2) =>
            (⟨expose_success_res deployment_name service_name service_type created,
               [readAct, readSvcAct,
                Action.api "patch_namespaced_service" [optStr service_name, optStr ns]]⟩,
             st2)
          | Except.error e2 =>
            (⟨mkErr ("Kubernetes API error: " ++ e2.reason ++ " - " ++ e2.body),
               [readAct, readSvcAct,
                Action.api "patch_namespaced_service" [optStr service_name, optStr ns]]⟩,
             st)

/-- `get_pods` (source lines 60-87). -/
def get_pods (env : Env) (ns : Option String) : ToolOut :=
  match env.load_kube_config with
  | Except.error e => ⟨mkErr e.str, []⟩
  | Except.ok _ =>
    let render := fun (pods : List PodItem) =>
      mkOk [("pods", Jval.jarr (pods.map fun pod => Jval.jobj
        [("name", Jval.jstr pod.name), ("namespace", Jval.jstr pod.ns),
         ("status", jOpt pod.phase), ("ip", jOpt pod.pod_ip)]))]
    match truthy? ns with
    | some n =>
      match env.list_namespaced_pod n with
      | Except.error e => ⟨mkErr e.str, [Action.api "list_namespaced_pod" [n]]⟩
      | Except.ok pods => ⟨render pods, [Action.api "list_namespaced_pod" [n]]⟩
    | none =>
      match env.list_pod_for_all_namespaces with
      | Except.error e => ⟨mkErr e.str, [Action.api "list_pod_for_all_namespaces" []]⟩
      | Except.ok pods => ⟨render pods, [Action.api "list_pod_for_all_namespaces" []]⟩

/-- `get_namespaces` (source lines 88-102). -/
def get_namespaces (env : Env) : ToolOut :=
  match env.load_kube_config with
  | Except.error e => ⟨mkErr e.str, []⟩
  | Except.ok _ =>
    match env.list_namespace with
    | Except.error e => ⟨mkErr e.str, [Action.api "list_namespace" []]⟩
    | Except.ok names =>
      ⟨mkOk [("namespaces", Jval.jarr (names.map Jval.jstr))],
       [Action.api "list_namespace" []]⟩

/-- `get_services` (source lines 104-128). -/
def get_services (env : Env) (ns : Option String) : ToolOut :=
  match env.load_kube_config with
  | Except.error e => ⟨mkErr e.str, []⟩
  | Except.ok _ =>
    let render := fun (svcs : List SvcItem) =>
      mkOk [("services", Jval.jarr (svcs.map fun svc => Jval.jobj
        [("name", Jval.jstr svc.name), ("namespace", Jval.jstr svc.ns),
         ("type", jOpt svc.svc_type), ("cluster_ip", jOpt svc.cluster_ip)]))]
    match truthy? ns with
    | some n =>
      match env.list_namespaced_service n with
      | Except.error e => ⟨mkErr e.str, [Action.api "list_namespaced_service" [n]]⟩
      | Except.ok svcs => ⟨render svcs, [Action.api "list_namespaced_service" [n]]⟩
    | none =>
      match env.list_service_for_all_namespaces with
      | Except.error e => ⟨mkErr e.str, [Action.api "list_service_for_all_namespaces" []]⟩
      | Except.ok svcs => ⟨render svcs, [Action.api "list_service_for_all_namespaces" []]⟩

/-- `get_nodes` (source lines 257-277). -/
def get_nodes (env : Env) : ToolOut :=
  match env.load_kube_config with
  | Except.error e => ⟨mkErr e.str, []⟩
  | Except.ok _ =>
    match env.list_node with
    | Except.error e => ⟨mkErr e.str, [Action.api "list_node" []]⟩
    | Except.ok nodes =>
      ⟨mkOk [("nodes", Jval.jarr (nodes.map fun node => Jval.jobj
         [("name", Jval.jstr node.name),
          ("status", jOpt node.conditions.getLast?),
          ("addresses", Jval.jarr (node.addresses.map Jval.jstr))]))],
       [Action.api "list_node" []]⟩

/-- `get_configmaps` (source lines 279-302). -/
def get_configmaps (env : Env) (ns : Option String) : ToolOut :=
  match env.load_kube_config with
  | Except.error e => ⟨mkErr e.str, []⟩
  | Except.ok _ =>
    let render := fun (cms : List CmItem) =>
      mkOk [("configmaps", Jval.jarr (cms.map fun cm => Jval.jobj
        [("name", Jval.jstr cm.name), ("namespace", Jval.jstr cm.ns),
         ("data", match cm.data with
                  | some d => Jval.jobj (d.map fun kv => (kv.1, Jval.jstr kv.2))
                  | none => Jval.jnull)]))]
    match truthy? ns with
    | some n =>
      match env.list_namespaced_config_map n with
      | Except.error e => ⟨mkErr e.str, [Action.api "list_namespaced_config_map" [n]]⟩
      | Except.ok cms => ⟨render cms, [Action.api "list_namespaced_config_map" [n]]⟩
    | none =>
      match env.list_config_map_for_all_namespaces with
      | Except.error e =>
        ⟨mkErr e.str, [Action.api "list_config_map_for_all_namespaces" []]⟩
      | Except.ok cms =>
        ⟨render cms, [Action.api "list_config_map_for_all_namespaces" []]⟩

/-- `get_secrets` (source lines 304-327). -/
def get_secrets (env : Env) (ns : Option String) : ToolOut :=
  match env.load_kube_config with
  | Except.error e => ⟨mkErr e.str, []⟩
  | Except.ok _ =>
    let render := fun (secrets : List SecretItem) =>
      mkOk [("secrets", Jval.jarr (secrets.map fun secret => Jval.jobj
        [("name", Jval.jstr secret.name), ("namespace", Jval.jstr secret.ns),
         ("type", jOpt secret.secret_type)]))]
    match truthy? ns with
    | some n =>
      match env.list_namespaced_secret n with
      | Except.error e => ⟨mkErr e.str, [Action.api "list_namespaced_secret" [n]]⟩
      | Except.ok secrets => ⟨render secrets, [Action.api "list_namespaced_secret" [n]]⟩
    | none =>
      match env.list_secret_for_all_namespaces with
      | Except.error e => ⟨mkErr e.str, [Action.api "list_secret_for_all_namespaces" []]⟩
      | Except.ok secrets => ⟨render secrets, [Action.api "list_secret_for_all_namespaces" []]⟩

/-- `get_rbac_roles` (source lines 502-519). -/
def get_rbac_roles (env : Env) (ns : Option String) : ToolOut :=
  match env.load_kube_config with
  | Except.error e => ⟨mkErr e.str, []⟩
  | Except.ok _ =>
    match truthy? ns with
    | some n =>
      match env.list_namespaced_role n with
      | Except.error e => ⟨mkErr e.str, [Action.api "list_namespaced_role" [n]]⟩
      | Except.ok roles =>
        ⟨mkOk [("roles", Jval.jarr (roles.map Jval.jstr))],
         [Action.api "list_namespaced_role" [n]]⟩
    | none =>
      match env.list_role_for_all_namespaces with
      | Except.error e => ⟨mkErr e.str, [Action.api "list_role_for_all_namespaces" []]⟩
      | Except.ok roles =>
        ⟨mkOk [("roles", Jval.jarr (roles.map Jval.jstr))],
         [Action.api "list_role_for_all_namespaces" []]⟩

/-- `get_cluster_roles` (source lines 521-535). -/
def get_cluster_roles (env : Env) : ToolOut :=
  match env.load_kube_config with
  | Except.error e => ⟨mkErr e.str, []⟩
  | Except.ok _ =>
    match env.list_cluster_role with
    | Except.error e => ⟨mkErr e.str, [Action.api "list_cluster_role" []]⟩
    | Except.ok roles =>
      ⟨mkOk [("cluster_roles", Jval.jarr (roles.map Jval.jstr))],
       [Action.api "list_cluster_role" []]⟩

/-- `get_events` (source lines 537-562). -/
def get_events (env : Env) (ns : Option String) : ToolOut :=
  match env.load_kube_config with
  | Except.error e => ⟨mkErr e.str, []⟩
  | Except.ok _ =>
    let render := fun (events : List EventItem) =>
      mkOk [("events", Jval.jarr (events.map fun event => Jval.jobj
        [("name", Jval.jstr event.name), ("namespace", Jval.jstr event.ns),
         ("type", jOpt event.ev_type), ("reason", jOpt event.reason),
         ("message", jOpt event.message)]))]
    match truthy? ns with
    | some n =>
      match env.list_namespaced_event n none with
      | Except.error e => ⟨mkErr e.str, [Action.api "list_namespaced_event" [n]]⟩
      | Except.ok events => ⟨render events, [Action.api "list_namespaced_event" [n]]⟩
    | none =>
      match env.list_event_for_all_namespaces with
      | Except.error e => ⟨mkErr e.str, [Action.api "list_event_for_all_namespaces" []]⟩
      | Except.ok events => ⟨render events, [Action.api "list_event_for_all_namespaces" []]⟩

/-- `health_check` (source lines 734-745). -/
def health_check (env : Env) : ToolOut :=
  match env.load_kube_config with
  | Except.error e => ⟨mkErr e.str, []⟩
  | Except.ok _ =>
    match env.get_api_resources_call with
    | Except.error e => ⟨mkErr e.str, [Action.api "get_api_resources" []]⟩
    | Except.ok _ =>
      ⟨mkOk [("message", Jval.jstr "Cluster API is reachable")],
       [Action.api "get_api_resources" []]⟩

/-- `get_pod_events` (source lines 747-770). -/
def get_pod_events (env : Env) (pod_name : String) (ns : String) : ToolOut :=
  match env.load_kube_config with
  | Except.error e => ⟨mkErr e.str, []⟩
  | Except.ok _ =>
    let field_selector := "involvedObject.name=" ++ pod_name
    match env.list_namespaced_event ns (some field_selector) with
    | Except.error e => ⟨mkErr e.str, [Action.api "list_namespaced_event" [ns, field_selector]]⟩
    | Except.ok events =>
      ⟨mkOk [("events", Jval.jarr (events.map fun event => Jval.jobj
         [("name", Jval.jstr event.name), ("type", jOpt event.ev_type),
          ("reason", jOpt event.reason), ("message", jOpt event.message),
          ("timestamp", jOpt event.last_timestamp)]))],
       [Action.api "list_namespaced_event" [ns, field_selector]]⟩

/-- `check_pod_health` (source lines 772-788). -/
def check_pod_health (env : Env) (pod_name : String) (ns : String) : ToolOut :=
  match env.load_kube_config with
  | Except.error e => ⟨mkErr e.str, []⟩
  | Except.ok _ =>
    match env.read_namespaced_pod pod_name ns with
    | Except.error e => ⟨mkErr e.str, [Action.api "read_namespaced_pod" [pod_name, ns]]⟩
    | Except.ok status =>
      ⟨mkOk [("phase", jOpt status.phase),
             ("conditions", Jval.jarr ((status.conditions.getD []).map Jval.jstr))],
       [Action.api "read_namespaced_pod" [pod_name, ns]]⟩

/-- `get_deployments` (source lines 790-813). -/
def get_deployments (env : Env) (ns : Option String) : ToolOut :=
  match env.load_kube_config with
  | Except.error e => ⟨mkErr e.str, []⟩
  | Except.ok _ =>
    let render := fun (ds : List DeployItem) =>
      mkOk [("deployments", Jval.jarr (ds.map fun d => Jval.jobj
        [("name", Jval.jstr d.name), ("namespace", Jval.jstr d.ns),
         ("replicas", match d.status_replicas with
                      | some n => Jval.jnum n
                      | none => Jval.jnull)]))]
    match truthy? ns with
    | some n =>
      match env.list_namespaced_deployment n with
      | Except.error e => ⟨mkErr e.str, [Action.api "list_namespaced_deployment" [n]]⟩
      | Except.ok ds => ⟨render ds, [Action.api "list_namespaced_deployment" [n]]⟩
    | none =>
      match env.list_deployment_for_all_namespaces with
      | Except.error e => ⟨mkErr e.str, [Action.api "list_deployment_for_all_namespaces" []]⟩
      | Except.ok ds => ⟨render ds, [Action.api "list_deployment_for_all_namespaces" []]⟩

/-- `create_deployment` (source lines 815-857). -/
def create_deployment (env : Env) (name image : String) (replicas : Int)
    (ns : String) : ToolOut :=
  match env.load_kube_config with
  | Except.error e => ⟨mkErr e.str, []⟩
  | Except.ok _ =>
    let deployment : DeployBody :=
      { name := name, replicas := replicas
        match_labels := [("app", name)], template_labels := [("app", name)]
        container_name := name, container_image := image }
    match env.create_namespaced_deployment deployment ns with
    | Except.error e => ⟨mkErr e.str, [Action.api "create_namespaced_deployment" [name, ns]]⟩
    | Except.ok _ =>
      ⟨mkOk [("message", Jval.jstr ("Deployment " ++ name ++ " created successfully"))],
       [Action.api "create_namespaced_deployment" [name, ns]]⟩

/-- `delete_resource` (source lines 859-884). -/
def delete_resource (env : Env) (resource_type name ns : String) : ToolOut :=
  match env.load_kube_config with
  | Except.error e => ⟨mkErr e.str, []⟩
  | Except.ok _ =>
    let okRes :=
      mkOk [("message", Jval.jstr (resource_type ++ " " ++ name ++ " deleted successfully"))]
    if resource_type = "pod" then
      match env.delete_namespaced_pod name ns with
      | Except.error e => ⟨mkErr e.str, [Action.api "delete_namespaced_pod" [name, ns]]⟩
      | Except.ok _ => ⟨okRes, [Action.api "delete_namespaced_pod" [name, ns]]⟩
    else if resource_type = "deployment" then
      match env.delete_namespaced_deployment name ns with
      | Except.error e => ⟨mkErr e.str, [Action.api "delete_namespaced_deployment" [name, ns]]⟩
      | Except.ok _ => ⟨okRes, [Action.api "delete_namespaced_deployment" [name, ns]]⟩
    else if resource_type = "service" then
      match env.delete_namespaced_service name ns with
      | Except.error e => ⟨mkErr e.str, [Action.api "delete_namespaced_service" [name, ns]]⟩
      | Except.ok _ => ⟨okRes, [Action.api "delete_namespaced_service" [name, ns]]⟩
    else
      ⟨mkErr ("Unsupported resource type: " ++ resource_type), []⟩

/-- `get_logs` (source lines 886-907). -/
def get_logs (env : Env) (pod_name ns : String) (container : Option String)
    (tail : Option Int) : ToolOut :=
  match env.load_kube_config with
  | Except.error e => ⟨mkErr e.str, []⟩
  | Except.ok _ =>
    match env.read_namespaced_pod_log pod_name ns container tail with
    | Except.error e => ⟨mkErr e.str, [Action.api "read_namespaced_pod_log" [pod_name, ns]]⟩
    | Except.ok logs =>
      ⟨mkOk [("logs", Jval.jstr logs)], [Action.api "read_namespaced_pod_log" [pod_name, ns]]⟩

/-- `scale_deployment` (source lines 937-967). -/
def scale_deployment (env : Env) (name : String) (replicas : Int) (ns : String) :
    ToolOut :=
  match env.load_kube_config with
  | Except.error e => ⟨mkErr e.str, []⟩
  | Except.ok _ =>
    match env.read_namespaced_deployment (some name) (some ns) with
    | Except.error e => ⟨mkErr e.str, [Action.api "read_namespaced_deployment" [name, ns]]⟩
    | Except.ok dep =>
      let dep2 := { dep with spec_replicas := some replicas }
      match env.patch_namespaced_deployment name ns dep2 with
      | Except.error e =>
        ⟨mkErr e.str,
         [Action.api "read_namespaced_deployment" [name, ns],
          Action.api "patch_namespaced_deployment" [name, ns]]⟩
      | Except.ok _ =>
        ⟨mkOk [("message", Jval.jstr ("Deployment " ++ name ++ " scaled to " ++
            toString replicas ++ " replicas"))],
         [Action.api "read_namespaced_deployment" [name, ns],
          Action.api "patch_namespaced_deployment" [name, ns]]⟩

/-- The repo-addition block shared verbatim by `install_helm_chart` and
`upgrade_helm_chart` (source lines 338-361 / 418-441): either an error result
dictionary, or the (possibly repo-qualified) chart, in both cases with the
commands run. -/
def helm_repo_setup (env : Env) (repo : Option String) (chart : String) :
    Except (List (String × Jval) × List Action) (String × List Action) :=
  match truthy? repo with
  | none => Except.ok (chart, [])
  | some r =>
    match pySplitEq r with
    | [repo_name, repo_url] =>
      let addCmd := ["helm", "repo", "add", repo_name, repo_url]
      match env.checkOutput addCmd with
      | CmdRes.fail e =>
        Except.error (mkErr ("Failed to add Helm repo: " ++ e), [Action.run addCmd])
      | CmdRes.notFound =>
        Except.error (mkErr ("Unexpected error: " ++ cmdExcMsg CmdRes.notFound), [])
      | CmdRes.ok _ =>
        let updCmd := ["helm", "repo", "update"]
        match env.checkOutput updCmd with
        | CmdRes.fail e =>
          Except.error (mkErr ("Failed to add Helm repo: " ++ e),
            [Action.run addCmd, Action.run updCmd])
        | CmdRes.notFound =>
          Except.error (mkErr ("Unexpected error: " ++ cmdExcMsg CmdRes.notFound),
            [Action.run addCmd])
        | CmdRes.ok _ =>
          let chart2 := if pyContainsSlash chart then chart
                        else repo_name ++ "/" ++ chart
          Except.ok (chart2, [Action.run addCmd, Action.run updCmd])
    | _ =>
      Except.error (mkErr "Repository format should be 'repo_name=repo_url'", [])

/-- The final `helm install` command (source lines 364 and 379-386). -/
def helm_install_cmd (env : Env) (name chart nsp : String)
    (values : Option (List (String × Jval))) : List String :=
  ["helm", "install", name, chart, "-n", nsp] ++
    (if dictTruthy values then ["-f", env.tmp_values_file] else [])

/-- The final `helm upgrade` command (source lines 444 and 446-453). -/
def helm_upgrade_cmd (env : Env) (name chart nsp : String)
    (values : Option (List (String × Jval))) : List String :=
  ["helm", "upgrade", name, chart, "-n", nsp] ++
    (if dictTruthy values then ["-f", env.tmp_values_file] else [])

/-- Values handling and the `helm install` execution (source lines 379-404). -/
def install_run (env : Env) (name chart nsp : String)
    (values : Option (List (String × Jval))) (tr : List Action) : ToolOut :=
  let cmd := helm_install_cmd env name chart nsp values
  match env.checkOutput cmd with
  | CmdRes.ok out =>
    ⟨mkOk [("message", Jval.jstr ("Helm chart " ++ chart ++ " installed as " ++
        name ++ " in " ++ nsp)),
       ("details", Jval.jstr out)], tr ++ [Action.run cmd]⟩
  | CmdRes.fail e =>
    ⟨mkErr ("Failed to install Helm chart: " ++ e), tr ++ [Action.run cmd]⟩
  | CmdRes.notFound =>
    ⟨mkErr ("Unexpected error: " ++ cmdExcMsg CmdRes.notFound), tr⟩

/-- Namespace existence check and creation before `helm install`
(source lines 366-377). -/
def helm_install_after_repo (env : Env) (name chart nsp : String)
    (values : Option (List (String × Jval))) (tr : List Action) : ToolOut :=
  let getNsCmd := ["kubectl", "get", "namespace", nsp]
  match env.checkOutput getNsCmd with
  | CmdRes.ok _ => install_run env name chart nsp values (tr ++ [Action.run getNsCmd])
  | CmdRes.fail _ =>
    let createNsCmd := ["kubectl", "create", "namespace", nsp]
    match env.checkOutput createNsCmd with
    | CmdRes.ok _ =>
      install_run env name chart nsp values
        (tr ++ [Action.run getNsCmd, Action.run createNsCmd])
    | CmdRes.fail e =>
      ⟨mkErr ("Failed to create namespace: " ++ e),
       tr ++ [Action.run getNsCmd, Action.run createNsCmd]⟩
    | CmdRes.notFound =>
      ⟨mkErr ("Unexpected error: " ++ cmdExcMsg CmdRes.notFound),
       tr ++ [Action.run getNsCmd]⟩
  | CmdRes.notFound =>
    -- FileNotFoundError escapes the CalledProcessError handler
    ⟨mkErr ("Unexpected error: " ++ cmdExcMsg CmdRes.notFound), tr⟩

/-- `install_helm_chart` (source lines 329-407). -/
def install_helm_chart (env : Env) (name chart nsp : String) (repo : Option String)
    (values : Option (List (String × Jval))) : ToolOut :=
  let avail := check_tool_availability env "helm"
  if avail.1 = false then
    ⟨mkErr "Helm is not available on this system", avail.2⟩
  else
    match helm_repo_setup env repo chart with
    | Except.error (res, tr) => ⟨res, avail.2 ++ tr⟩
    | Except.ok (chart2, tr) =>
      helm_install_after_repo env name chart2 nsp values (avail.2 ++ tr)

/-- Values handling and the `helm upgrade` execution (source lines 446-471). -/
def upgrade_run (env : Env) (name chart nsp : String)
    (values : Option (List (String × Jval))) (tr : List Action) : ToolOut :=
  let cmd := helm_upgrade_cmd env name chart nsp values
  match env.checkOutput cmd with
  | CmdRes.ok out =>
    ⟨mkOk [("message", Jval.jstr ("Helm release " ++ name ++ " upgraded with chart " ++
        chart ++ " in " ++ nsp)),
       ("details", Jval.jstr out)], tr ++ [Action.run cmd]⟩
  | CmdRes.fail e =>
    ⟨mkErr ("Failed to upgrade Helm chart: " ++ e), tr ++ [Action.run cmd]⟩
  | CmdRes.notFound =>
    ⟨mkErr ("Unexpected error: " ++ cmdExcMsg CmdRes.notFound), tr⟩

/-- `upgrade_helm_chart` (source lines 409-474): same structure as install but
with no namespace check or creation. -/
def upgrade_helm_chart (env : Env) (name chart nsp : String) (repo : Option String)
    (values : Option (List (String × Jval))) : ToolOut :=
  let avail := check_tool_availability env "helm"
  if avail.1 = false then
    ⟨mkErr "Helm is not available on this system", avail.2⟩
  else
    match helm_repo_setup env repo chart with
    | Except.error (res, tr) => ⟨res, avail.2 ++ tr⟩
    | Except.ok (chart2, tr) => upgrade_run env name chart2 nsp values (avail.2 ++ tr)

/-- `uninstall_helm_chart` (source lines 476-500). -/
def uninstall_helm_chart (env : Env) (name nsp : String) : ToolOut :=
  let avail := check_tool_availability env "helm"
  if avail.1 = false then
    ⟨mkErr "Helm is not available on this system", avail.2⟩
  else
    let cmd := ["helm", "uninstall", name, "-n", nsp]
    match env.checkOutput cmd with
    | CmdRes.ok out =>
      ⟨mkOk [("message", Jval.jstr ("Helm release " ++ name ++ " uninstalled from " ++ nsp)),
         ("details", Jval.jstr out)], avail.2 ++ [Action.run cmd]⟩
    | CmdRes.fail e =>
      ⟨mkErr ("Failed to uninstall Helm chart: " ++ e), avail.2 ++ [Action.run cmd]⟩
    | CmdRes.notFound =>
      ⟨mkErr ("Unexpected error: " ++ cmdExcMsg CmdRes.notFound), avail.2⟩

/-- The namespace arguments of the `kubectl top pods` commands. -/
def ns_args (ns : Option String) : List String :=
  match truthy? ns with
  | some n => ["-n", n]
  | none => ["--all-namespaces"]

/-- `kubectl top pods` with JSON output (source lines 574-581). -/
def pod_json_cmd (ns : Option String) : List String :=
  ["kubectl", "top", "pods", "--no-headers"] ++ ns_args ns ++ ["-o", "json"]

/-- The pod fallback command without JSON output (source lines 590-594). -/
def pod_text_cmd (ns : Option String) : List String :=
  ["kubectl", "top", "pods"] ++ ns_args ns

/-- `kubectl top nodes` with JSON output (source line 601). -/
def node_json_cmd : List String :=
  ["kubectl", "top", "nodes", "--no-headers", "-o", "json"]

/-- The node fallback command without JSON output (source line 606). -/
def node_text_cmd : List String :=
  ["kubectl", "top", "nodes"]

/-- The text-output fallback of one `kubectl top` stage (source lines
590-597 / 605-608): a `CalledProcessError` from the fallback command escapes
to the outer handlers. -/
def kubectl_top_text (env : Env) (textCmd : List String) (tr : List Action) :
    Except (List (String × Jval) × List Action) (Jval × List Action) :=
  match env.checkOutput textCmd with
  | CmdRes.ok t =>
    Except.ok (Jval.jobj [("text_output", Jval.jstr t)], tr ++ [Action.run textCmd])
  | CmdRes.fail e =>
    Except.error (mkErr ("Failed to get resource usage: " ++ e),
      tr ++ [Action.run textCmd])
  | CmdRes.notFound =>
    Except.error (mkErr ("Unexpected error: " ++ cmdExcMsg CmdRes.notFound), tr)

/-- One `kubectl top` stage: JSON attempt with fallback to text output on a
command failure or invalid JSON (source lines 585-597 / 600-608). -/
def kubectl_top_stage (env : Env) (jsonCmd textCmd : List String) :
    Except (List (String × Jval) × List Action) (Jval × List Action) :=
  match env.checkOutput jsonCmd with
  | CmdRes.ok out =>
    match env.json_loads out with
    | some v => Except.ok (v, [Action.run jsonCmd])
    | none => kubectl_top_text env textCmd [Action.run jsonCmd]
  | CmdRes.fail _ => kubectl_top_text env textCmd [Action.run jsonCmd]
  | CmdRes.notFound =>
    Except.error (mkErr ("Unexpected error: " ++ cmdExcMsg CmdRes.notFound), [])

/-- `get_resource_usage` (source lines 564-621). -/
def get_resource_usage (env : Env) (ns : Option String) : ToolOut :=
  let avail := check_tool_availability env "kubectl"
  if avail.1 = false then
    ⟨mkErr "kubectl is not available on this system", avail.2⟩
  else
    match kubectl_top_stage env (pod_json_cmd ns) (pod_text_cmd ns) with
    | Except.error (res, tr) => ⟨res, avail.2 ++ tr⟩
    | Except.ok (pod_data, tr1) =>
      match kubectl_top_stage env node_json_cmd node_text_cmd with
      | Except.error (res, tr2) => ⟨res, avail.2 ++ tr1 ++ tr2⟩
      | Except.ok (node_data, tr2) =>
        ⟨mkOk [("pod_usage", pod_data), ("node_usage", node_data)],
         avail.2 ++ tr1 ++ tr2⟩

/-- `switch_context` (source lines 623-633). -/
def switch_context (env : Env) (context_name : String) : ToolOut :=
  let cmd := ["kubectl", "config", "use-context", context_name]
  match env.checkOutput cmd with
  | CmdRes.ok _ =>
    ⟨mkOk [("message", Jval.jstr ("Switched context to " ++ context_name))],
     [Action.run cmd]⟩
  | CmdRes.fail e => ⟨mkErr (cmdExcMsg (CmdRes.fail e)), [Action.run cmd]⟩
  | CmdRes.notFound => ⟨mkErr (cmdExcMsg CmdRes.notFound), []⟩

/-- The `gcloud container clusters get-credentials` step of `connect_to_gke`
(source lines 670-695). -/
def gcloud_login (env : Env) (project_id zone cluster_name : String) : ToolOut :=
  let cmd := ["gcloud", "container", "clusters", "get-credentials", cluster_name,
              "--zone=" ++ zone, "--project=" ++ project_id]
  match env.checkOutput cmd with
  | CmdRes.ok out =>
    ⟨mkOk [("message", Jval.jstr ("Kubeconfig updated. Logged into GKE cluster '" ++
        cluster_name ++ "'.")),
       ("gcloud_output", Jval.jstr out)], [Action.run cmd]⟩
  | CmdRes.fail e => ⟨mkErr e, [Action.run cmd]⟩
  | CmdRes.notFound =>
    ⟨mkErr "gcloud not found. Is Google Cloud SDK installed?", []⟩

/-- `connect_to_gke` (source lines 635-695). -/
def connect_to_gke (env : Env) (project_id zone cluster_name : String) : ToolOut :=
  let context_name := "gke_" ++ project_id ++ "_" ++ zone ++ "_" ++ cluster_name
  if env.kubeconfig_exists then
    match env.kubeconfig_contexts with
    | Except.error e => ⟨mkErr e.str, []⟩
    | Except.ok ctxs =>
      if ctxs.contains context_name then
        ⟨mkOk [("message", Jval.jstr ("Already logged in. Context '" ++ context_name ++
            "' exists in kubeconfig."))], []⟩
      else gcloud_login env project_id zone cluster_name
  else gcloud_login env project_id zone cluster_name

/-- `get_current_context` (source lines 698-708). -/
def get_current_context (env : Env) : ToolOut :=
  let cmd := ["kubectl", "config", "current-context"]
  match env.checkOutput cmd with
  | CmdRes.ok out => ⟨mkOk [("context", Jval.jstr out.trim)], [Action.run cmd]⟩
  | CmdRes.fail e => ⟨mkErr (cmdExcMsg (CmdRes.fail e)), [Action.run cmd]⟩
  | CmdRes.notFound => ⟨mkErr (cmdExcMsg CmdRes.notFound), []⟩

/-- `kubectl_explain` (source lines 710-720). -/
def kubectl_explain (env : Env) (resource : String) : ToolOut :=
  let cmd := ["kubectl", "explain", resource]
  match env.checkOutput cmd with
  | CmdRes.ok out => ⟨mkOk [("explanation", Jval.jstr out)], [Action.run cmd]⟩
  | CmdRes.fail e => ⟨mkErr (cmdExcMsg (CmdRes.fail e)), [Action.run cmd]⟩
  | CmdRes.notFound => ⟨mkErr (cmdExcMsg CmdRes.notFound), []⟩

/-- `get_api_resources` (source lines 722-732). -/
def get_api_resources (env : Env) : ToolOut :=
  let cmd := ["kubectl", "api-resources"]
  match env.checkOutput cmd with
  | CmdRes.ok out => ⟨mkOk [("resources", Jval.jstr out)], [Action.run cmd]⟩
  | CmdRes.fail e => ⟨mkErr (cmdExcMsg (CmdRes.fail e)), [Action.run cmd]⟩
  | CmdRes.notFound => ⟨mkErr (cmdExcMsg CmdRes.notFound), []⟩

/-- `port_forward` (source lines 909-935): `subprocess.Popen` starts the
process in the background and the tool returns immediately with its pid. -/
def port_forward (env : Env) (pod_name : String) (local_port pod_port : Int)
    (ns : String) : ToolOut :=
  let cmd := ["kubectl", "port-forward", "pod/" ++ pod_name,
              toString local_port ++ ":" ++ toString pod_port, "-n", ns]
  match env.popen cmd with
  | Except.ok pid =>
    ⟨mkOk [("message", Jval.jstr ("Port forwarding started: localhost:" ++
        toString local_port ++ " -> " ++ pod_name ++ ":" ++ toString pod_port)),
       ("process_pid", Jval.jnum pid)], [Action.spawn cmd]⟩
  | Except.error e => ⟨mkErr e, []⟩

/-- One invocation of a tool registered by `setup_tools`, with its arguments. -/
inductive ToolCall where
  | get_pods (ns : Option String)
  | get_namespaces
  | get_services (ns : Option String)
  | expose_deployment_with_service (deployment_name service_name : Option String)
      (target_port : Option Int) (protocol : String) (service_type : Option String)
      (ns : Option String) (port : Option Int) (selector_labels : Option Labels)
  | get_nodes
  | get_configmaps (ns : Option String)
  | get_secrets (ns : Option String)
  | install_helm_chart (name chart nsp : String) (repo : Option String)
      (values : Option (List (String × Jval)))
  | upgrade_helm_chart (name chart nsp : String) (repo : Option String)
      (values : Option (List (String × Jval)))
  | uninstall_helm_chart (name nsp : String)
  | get_rbac_roles (ns : Option String)
  | get_cluster_roles
  | get_events (ns : Option String)
  | get_resource_usage (ns : Option String)
  | switch_context (context_name : String)
  | connect_to_gke (project_id zone cluster_name : String)
  | get_current_context
  | kubectl_explain (resource : String)
  | get_api_resources
  | health_check
  | get_pod_events (pod_name : String) (ns : String)
  | check_pod_health (pod_name : String) (ns : String)
  | get_deployments (ns : Option String)
  | create_deployment (name image : String) (replicas : Int) (ns : String)
  | delete_resource (resource_type name ns : String)
  | get_logs (pod_name ns : String) (container : Option String) (tail : Option Int)
  | port_forward (pod_name : String) (local_port pod_port : Int) (ns : String)
  | scale_deployment (name : String) (replicas : Int) (ns : String)

/-- Dispatch a tool invocation; only `expose_deployment_with_service` touches
the service state. -/
def runTool (c : ToolCall) (env : Env) (st : ClusterSvc) : ToolOut × ClusterSvc :=
  match c with
  | ToolCall.get_pods ns => (get_pods env ns, st)
  | ToolCall.get_namespaces => (get_namespaces env, st)
  | ToolCall.get_services ns => (get_services env ns, st)
  | ToolCall.expose_deployment_with_service dn sn tp proto sty ns p sel =>
    expose_deployment_with_service env st dn sn tp proto sty ns p sel
  | ToolCall.get_nodes => (get_nodes env, st)
  | ToolCall.get_configmaps ns => (get_configmaps env ns, st)
  | ToolCall.get_secrets ns => (get_secrets env ns, st)
  | ToolCall.install_helm_chart name chart nsp repo values =>
    (install_helm_chart env name chart nsp repo values, st)
  | ToolCall.upgrade_helm_chart name chart nsp repo values =>
    (upgrade_helm_chart env name chart nsp repo values, st)
  | ToolCall.uninstall_helm_chart name nsp => (uninstall_helm_chart env name nsp, st)
  | ToolCall.get_rbac_roles ns => (get_rbac_roles env ns, st)
  | ToolCall.get_cluster_roles => (get_cluster_roles env, st)
  | ToolCall.get_events ns => (get_events env ns, st)
  | ToolCall.get_resource_usage ns => (get_resource_usage env ns, st)
  | ToolCall.switch_context context_name => (switch_context env context_name, st)
  | ToolCall.connect_to_gke p z c => (connect_to_gke env p z c, st)
  | ToolCall.get_current_context => (get_current_context env, st)
  | ToolCall.kubectl_explain r => (kubectl_explain env r, st)
  | ToolCall.get_api_resources => (get_api_resources env, st)
  | ToolCall.health_check => (health_check env, st)
  | ToolCall.get_pod_events pn ns => (get_pod_events env pn ns, st)
  | ToolCall.check_pod_health pn ns => (check_pod_health env pn ns, st)
  | ToolCall.get_deployments ns => (get_deployments env ns, st)
  | ToolCall.create_deployment n i r ns => (create_deployment env n i r ns, st)
  | ToolCall.delete_resource rt n ns => (delete_resource env rt n ns, st)
  | ToolCall.get_logs pn ns c t => (get_logs env pn ns c t, st)
  | ToolCall.port_forward pn lp pp ns => (port_forward env pn lp pp ns, st)
  | ToolCall.scale_deployment n r ns => (scale_deployment env n r ns, st)

/-! ## Result-shape predicates and helper lemmas -/

/-- A well-formed error envelope: `"success"` bound to `False` and an
`"error"` key present. -/
def ErrShape (r : List (String × Jval)) : Prop :=
  lookupKey "success" r = some (Jval.jbool false) ∧ hasKey "error" r = true

/-- A well-formed tool result: `"success"` bound to `True`, or an error
envelope.  In particular the `"success"` key is always present. -/
def GoodRes (r : List (String × Jval)) : Prop :=
  lookupKey "success" r = some (Jval.jbool true) ∨ ErrShape r

theorem lookupKey_mkOk (rest : List (String × Jval)) :
    lookupKey "success" (mkOk rest) = some (Jval.jbool true) := rfl

theorem errShape_mkErr (msg : String) : ErrShape (mkErr msg) := ⟨rfl, rfl⟩

theorem goodRes_mkOk (rest : List (String × Jval)) : GoodRes (mkOk rest) :=
  Or.inl (lookupKey_mkOk rest)

theorem goodRes_mkErr (msg : String) : GoodRes (mkErr msg) :=
  Or.inr (errShape_mkErr msg)

theorem GoodRes.hasSuccess {r : List (String × Jval)} (h : GoodRes r) :
    hasKey "success" r = true := by
  rcases h with h | ⟨h, _⟩ <;> simp [hasKey, h]

/-- An environment in which every wrapped Kubernetes API call and every
subprocess invocation fails (kubeconfig loading succeeds; the `helm` and
`kubectl` binaries are absent from `PATH`). -/
def failEnv : Env where
  load_kube_config := Except.ok ()
  list_namespaced_pod := fun _ => Except.error ⟨500, "boom", "boom"⟩
  list_pod_for_all_namespaces := Except.error ⟨500, "boom", "boom"⟩
  list_namespace := Except.error ⟨500, "boom", "boom"⟩
  list_namespaced_service := fun _ => Except.error ⟨500, "boom", "boom"⟩
  list_service_for_all_namespaces := Except.error ⟨500, "boom", "boom"⟩
  read_namespaced_deployment := fun _ _ => Except.error ⟨500, "boom", "boom"⟩
  read_service_fault := some ⟨500, "boom", "boom"⟩
  list_node := Except.error ⟨500, "boom", "boom"⟩
  list_namespaced_config_map := fun _ => Except.error ⟨500, "boom", "boom"⟩
  list_config_map_for_all_namespaces := Except.error ⟨500, "boom", "boom"⟩
  list_namespaced_secret := fun _ => Except.error ⟨500, "boom", "boom"⟩
  list_secret_for_all_namespaces := Except.error ⟨500, "boom", "boom"⟩
  list_namespaced_role := fun _ => Except.error ⟨500, "boom", "boom"⟩
  list_role_for_all_namespaces := Except.error ⟨500, "boom", "boom"⟩
  list_cluster_role := Except.error ⟨500, "boom", "boom"⟩
  list_namespaced_event := fun _ _ => Except.error ⟨500, "boom", "boom"⟩
  list_event_for_all_namespaces := Except.error ⟨500, "boom", "boom"⟩
  get_api_resources_call := Except.error ⟨500, "boom", "boom"⟩
  read_namespaced_pod := fun _ _ => Except.error ⟨500, "boom", "boom"⟩
  list_namespaced_deployment := fun _ => Except.error ⟨500, "boom", "boom"⟩
  list_deployment_for_all_namespaces := Except.error ⟨500, "boom", "boom"⟩
  create_namespaced_deployment := fun _ _ => Except.error ⟨500, "boom", "boom"⟩
  patch_namespaced_deployment := fun _ _ _ => Except.error ⟨500, "boom", "boom"⟩
  delete_namespaced_pod := fun _ _ => Except.error ⟨500, "boom", "boom"⟩
  delete_namespaced_deployment := fun _ _ => Except.error ⟨500, "boom", "boom"⟩
  delete_namespaced_service := fun _ _ => Except.error ⟨500, "boom", "boom"⟩
  read_namespaced_pod_log := fun _ _ _ _ => Except.error ⟨500, "boom", "boom"⟩
  checkOutput := fun _ => CmdRes.fail "boom"
  popen := fun _ => Except.error "boom"
  whichFound := fun _ => false
  json_loads := fun _ => none
  kubeconfig_exists := false
  kubeconfig_contexts := Except.error ⟨500, "boom", "boom"⟩
  tmp_values_file := "/tmp/values.yaml"

/-- An environment in which every wrapped call succeeds. -/
def okEnv : Env where
  load_kube_config := Except.ok ()
  list_namespaced_pod := fun _ => Except.ok []
  list_pod_for_all_namespaces := Except.ok []
  list_namespace := Except.ok ["default"]
  list_namespaced_service := fun _ => Except.ok []
  list_service_for_all_namespaces := Except.ok []
  read_namespaced_deployment := fun _ _ => Except.ok ⟨some [("app", "demo")], some 1⟩
  read_service_fault := none
  list_node := Except.ok []
  list_namespaced_config_map := fun _ => Except.ok []
  list_config_map_for_all_namespaces := Except.ok []
  list_namespaced_secret := fun _ => Except.ok []
  list_secret_for_all_namespaces := Except.ok []
  list_namespaced_role := fun _ => Except.ok []
  list_role_for_all_namespaces := Except.ok []
  list_cluster_role := Except.ok []
  list_namespaced_event := fun _ _ => Except.ok []
  list_event_for_all_namespaces := Except.ok []
  get_api_resources_call := Except.ok ()
  read_namespaced_pod := fun _ _ => Except.ok ⟨some "Running", some ["Ready"]⟩
  list_namespaced_deployment := fun _ => Except.ok []
  list_deployment_for_all_namespaces := Except.ok []
  create_namespaced_deployment := fun _ _ => Except.ok ()
  patch_namespaced_deployment := fun _ _ _ => Except.ok ()
  delete_namespaced_pod := fun _ _ => Except.ok ()
  delete_namespaced_deployment := fun _ _ => Except.ok ()
  delete_namespaced_service := fun _ _ => Except.ok ()
  read_namespaced_pod_log := fun _ _ _ _ => Except.ok "log"
  checkOutput := fun _ => CmdRes.ok "out"
  popen := fun _ => Except.ok 42
  whichFound := fun _ => true
  json_loads := fun _ => some Jval.jnull
  kubeconfig_exists := false
  kubeconfig_contexts := Except.ok []
  tmp_values_file := "/tmp/values.yaml"

/-! ## Every tool returns a well-formed envelope -/

theorem goodRes_get_pods (env : Env) (ns : Option String) :
    GoodRes (get_pods env ns).res := by
  unfold get_pods
  repeat' (first | split | dsimp only)
  all_goals first | exact goodRes_mkOk _ | exact goodRes_mkErr _

theorem goodRes_get_namespaces (env : Env) :
    GoodRes (get_namespaces env).res := by
  unfold get_namespaces
  repeat' (first | split | dsimp only)
  all_goals first | exact goodRes_mkOk _ | exact goodRes_mkErr _

theorem goodRes_get_services (env : Env) (ns : Option String) :
    GoodRes (get_services env ns).res := by
  unfold get_services
  repeat' (first | split | dsimp only)
  all_goals first | exact goodRes_mkOk _ | exact goodRes_mkErr _

theorem goodRes_expose (env : Env) (st : ClusterSvc)
    (dn sn : Option String) (tp : Option Int) (proto : String)
    (sty ns : Option String) (p : Option Int) (sel : Option Labels) :
    GoodRes (expose_deployment_with_service env st dn sn tp proto sty ns p sel).1.res := by
  unfold expose_deployment_with_service
  repeat' (first | split | dsimp only)
  all_goals first | exact goodRes_mkOk _ | exact goodRes_mkErr _

theorem goodRes_get_nodes (env : Env) :
    GoodRes (get_nodes env).res := by
  unfold get_nodes
  repeat' (first | split | dsimp only)
  all_goals first | exact goodRes_mkOk _ | exact goodRes_mkErr _

theorem goodRes_get_configmaps (env : Env) (ns : Option String) :
    GoodRes (get_configmaps env ns).res := by
  unfold get_configmaps
  repeat' (first | split | dsimp only)
  all_goals first | exact goodRes_mkOk _ | exact goodRes_mkErr _

theorem goodRes_get_secrets (env : Env) (ns : Option String) :
    GoodRes (get_secrets env ns).res := by
  unfold get_secrets
  repeat' (first | split | dsimp only)
  all_goals first | exact goodRes_mkOk _ | exact goodRes_mkErr _

theorem errShape_helm_repo_setup {env : Env} {repo : Option String} {chart : String}
    {res : List (String × Jval)} {tr : List Action}
    (h : helm_repo_setup env repo chart = Except.error (res, tr)) : ErrShape res := by
  unfold helm_repo_setup at h
  repeat' (first | split at h | dsimp only at h)
  all_goals
    first
      | exact Except.noConfusion h
      | (injection h with h1; injection h1 with h2 h3; exact h2 ▸ errShape_mkErr _)

theorem goodRes_install_run (env : Env) (name chart nsp : String)
    (values : Option (List (String × Jval))) (tr : List Action) :
    GoodRes (install_run env name chart nsp values tr).res := by
  unfold install_run
  repeat' (first | split | dsimp only)
  all_goals first | exact goodRes_mkOk _ | exact goodRes_mkErr _

theorem goodRes_helm_install_after_repo (env : Env) (name chart nsp : String)
    (values : Option (List (String × Jval))) (tr : List Action) :
    GoodRes (helm_install_after_repo env name chart nsp values tr).res := by
  unfold helm_install_after_repo
  repeat' (first | split | dsimp only)
  all_goals
    first
      | exact goodRes_install_run _ _ _ _ _ _
      | exact goodRes_mkErr _

theorem goodRes_install_helm_chart (env : Env) (name chart nsp : String)
    (repo : Option String) (values : Option (List (String × Jval))) :
    GoodRes (install_helm_chart env name chart nsp repo values).res := by
  unfold install_helm_chart
  dsimp only
  split
  · exact goodRes_mkErr _
  · split
    · rename_i res tr heq
      exact Or.inr (errShape_helm_repo_setup heq)
    · exact goodRes_helm_install_after_repo _ _ _ _ _ _

theorem goodRes_upgrade_run (env : Env) (name chart nsp : String)
    (values : Option (List (String × Jval))) (tr : List Action) :
    GoodRes (upgrade_run env name chart nsp values tr).res := by
  unfold upgrade_run
  repeat' (first | split | dsimp only)
  all_goals first | exact goodRes_mkOk _ | exact goodRes_mkErr _

theorem goodRes_upgrade_helm_chart (env : Env) (name chart nsp : String)
    (repo : Option String) (values : Option (List (String × Jval))) :
    GoodRes (upgrade_helm_chart env name chart nsp repo values).res := by
  unfold upgrade_helm_chart
  dsimp only
  split
  · exact goodRes_mkErr _
  · split
    · rename_i res tr heq
      exact Or.inr (errShape_helm_repo_setup heq)
    · exact goodRes_upgrade_run _ _ _ _ _ _

theorem goodRes_uninstall_helm_chart (env : Env) (name nsp : String) :
    GoodRes (uninstall_helm_chart env name nsp).res := by
  unfold uninstall_helm_chart
  repeat' (first | split | dsimp only)
  all_goals first | exact goodRes_mkOk _ | exact goodRes_mkErr _

theorem goodRes_get_rbac_roles (env : Env) (ns : Option String) :
    GoodRes (get_rbac_roles env ns).res := by
  unfold get_rbac_roles
  repeat' (first | split | dsimp only)
  all_goals first | exact goodRes_mkOk _ | exact goodRes_mkErr _

theorem goodRes_get_cluster_roles (env : Env) :
    GoodRes (get_cluster_roles env).res := by
  unfold get_cluster_roles
  repeat' (first | split | dsimp only)
  all_goals first | exact goodRes_mkOk _ | exact goodRes_mkErr _

theorem goodRes_get_events (env : Env) (ns : Option String) :
    GoodRes (get_events env ns).res := by
  unfold get_events
  repeat' (first | split | dsimp only)
  all_goals first | exact goodRes_mkOk _ | exact goodRes_mkErr _

theorem errShape_kubectl_top_text {env : Env} {textCmd : List String}
    {tr0 : List Action} {res : List (String × Jval)} {tr : List Action}
    (h : kubectl_top_text env textCmd tr0 = Except.error (res, tr)) : ErrShape res := by
  unfold kubectl_top_text at h
  repeat' (first | split at h | dsimp only at h)
  all_goals
    first
      | exact Except.noConfusion h
      | (injection h with h1; injection h1 with h2 h3; exact h2 ▸ errShape_mkErr _)

theorem errShape_kubectl_top_stage {env : Env} {jsonCmd textCmd : List String}
    {res : List (String × Jval)} {tr : List Action}
    (h : kubectl_top_stage env jsonCmd textCmd = Except.error (res, tr)) : ErrShape res := by
  unfold kubectl_top_stage at h
  repeat' (first | split at h | dsimp only at h)
  all_goals
    first
      | exact Except.noConfusion h
      | exact errShape_kubectl_top_text h
      | (injection h with h1; injection h1 with h2 h3; exact h2 ▸ errShape_mkErr _)

theorem goodRes_get_resource_usage (env : Env) (ns : Option String) :
    GoodRes (get_resource_usage env ns).res := by
  unfold get_resource_usage
  dsimp only
  split
  · exact goodRes_mkErr _
  · split
    · rename_i res tr heq
      exact Or.inr (errShape_kubectl_top_stage heq)
    · split
      · rename_i res tr2 heq
        exact Or.inr (errShape_kubectl_top_stage heq)
      · exact goodRes_mkOk _

theorem goodRes_switch_context (env : Env) (context_name : String) :
    GoodRes (switch_context env context_name).res := by
  unfold switch_context
  repeat' (first | split | dsimp only)
  all_goals first | exact goodRes_mkOk _ | exact goodRes_mkErr _

theorem goodRes_gcloud_login (env : Env) (p z c : String) :
    GoodRes (gcloud_login env p z c).res := by
  unfold gcloud_login
  repeat' (first | split | dsimp only)
  all_goals first | exact goodRes_mkOk _ | exact goodRes_mkErr _

theorem goodRes_connect_to_gke (env : Env) (p z c : String) :
    GoodRes (connect_to_gke env p z c).res := by
  unfold connect_to_gke
  repeat' (first | split | dsimp only)
  all_goals
    first
      | exact goodRes_mkOk _
      | exact goodRes_mkErr _
      | exact goodRes_gcloud_login _ _ _ _

theorem goodRes_get_current_context (env : Env) :
    GoodRes (get_current_context env).res := by
  unfold get_current_context
  repeat' (first | split | dsimp only)
  all_goals first | exact goodRes_mkOk _ | exact goodRes_mkErr _

theorem goodRes_kubectl_explain (env : Env) (r : String) :
    GoodRes (kubectl_explain env r).res := by
  unfold kubectl_explain
  repeat' (first | split | dsimp only)
  all_goals first | exact goodRes_mkOk _ | exact goodRes_mkErr _

theorem goodRes_get_api_resources (env : Env) :
    GoodRes (get_api_resources env).res := by
  unfold get_api_resources
  repeat' (first | split | dsimp only)
  all_goals first | exact goodRes_mkOk _ | exact goodRes_mkErr _

theorem goodRes_health_check (env : Env) :
    GoodRes (health_check env).res := by
  unfold health_check
  repeat' (first | split | dsimp only)
  all_goals first | exact goodRes_mkOk _ | exact goodRes_mkErr _

theorem goodRes_get_pod_events (env : Env) (pn ns : String) :
    GoodRes (get_pod_events env pn ns).res := by
  unfold get_pod_events
  repeat' (first | split | dsimp only)
  all_goals first | exact goodRes_mkOk _ | exact goodRes_mkErr _

theorem goodRes_check_pod_health (env : Env) (pn ns : String) :
    GoodRes (check_pod_health env pn ns).res := by
  unfold check_pod_health
  repeat' (first | split | dsimp only)
  all_goals first | exact goodRes_mkOk _ | exact goodRes_mkErr _

theorem goodRes_get_deployments (env : Env) (ns : Option String) :
    GoodRes (get_deployments env ns).res := by
  unfold get_deployments
  repeat' (first | split | dsimp only)
  all_goals first | exact goodRes_mkOk _ | exact goodRes_mkErr _

theorem goodRes_create_deployment (env : Env) (n i : String) (r : Int) (ns : String) :
    GoodRes (create_deployment env n i r ns).res := by
  unfold create_deployment
  repeat' (first | split | dsimp only)
  all_goals first | exact goodRes_mkOk _ | exact goodRes_mkErr _

theorem goodRes_delete_resource (env : Env) (rt n ns : String) :
    GoodRes (delete_resource env rt n ns).res := by
  unfold delete_resource
  repeat' (first | split | dsimp only)
  all_goals first | exact goodRes_mkOk _ | exact goodRes_mkErr _

theorem goodRes_get_logs (env : Env) (pn ns : String) (c : Option String)
    (t : Option Int) : GoodRes (get_logs env pn ns c t).res := by
  unfold get_logs
  repeat' (first | split | dsimp only)
  all_goals first | exact goodRes_mkOk _ | exact goodRes_mkErr _

theorem goodRes_port_forward (env : Env) (pn : String) (lp pp : Int) (ns : String) :
    GoodRes (port_forward env pn lp pp ns).res := by
  unfold port_forward
  repeat' (first | split | dsimp only)
  all_goals first | exact goodRes_mkOk _ | exact goodRes_mkErr _

theorem goodRes_scale_deployment (env : Env) (n : String) (r : Int) (ns : String) :
    GoodRes (scale_deployment env n r ns).res := by
  unfold scale_deployment
  repeat' (first | split | dsimp only)
  all_goals first | exact goodRes_mkOk _ | exact goodRes_mkErr _

/-- Every tool invocation returns a well-formed envelope. -/
theorem goodRes_runTool (c : ToolCall) (env : Env) (st : ClusterSvc) :
    GoodRes (runTool c env st).1.res := by
  cases c <;>
    first
      | exact goodRes_get_pods _ _
      | exact goodRes_get_namespaces _
      | exact goodRes_get_services _ _
      | exact goodRes_expose _ _ _ _ _ _ _ _ _ _
      | exact goodRes_get_nodes _
      | exact goodRes_get_configmaps _ _
      | exact goodRes_get_secrets _ _
      | exact goodRes_install_helm_chart _ _ _ _ _ _
      | exact goodRes_upgrade_helm_chart _ _ _ _ _ _
      | exact goodRes_uninstall_helm_chart _ _ _
      | exact goodRes_get_rbac_roles _ _
      | exact goodRes_get_cluster_roles _
      | exact goodRes_get_events _ _
      | exact goodRes_get_resource_usage _ _
      | exact goodRes_switch_context _ _
      | exact goodRes_connect_to_gke _ _ _ _
      | exact goodRes_get_current_context _
      | exact goodRes_kubectl_explain _ _
      | exact goodRes_get_api_resources _
      | exact goodRes_health_check _
      | exact goodRes_get_pod_events _ _ _
      | exact goodRes_check_pod_health _ _ _
      | exact goodRes_get_deployments _ _
      | exact goodRes_create_deployment _ _ _ _ _
      | exact goodRes_delete_resource _ _ _ _
      | exact goodRes_get_logs _ _ _ _ _
      | exact goodRes_port_forward _ _ _ _ _
      | exact goodRes_scale_deployment _ _ _ _

/-- In the all-failing environment every tool returns an error envelope. -/
theorem errShape_runTool_failEnv (c : ToolCall) (st : ClusterSvc) :
    ErrShape (runTool c failEnv st).1.res := by
  cases c <;>
    simp only [runTool, get_pods, get_namespaces, get_services,
      expose_deployment_with_service, get_nodes, get_configmaps, get_secrets,
      install_helm_chart, upgrade_helm_chart, uninstall_helm_chart,
      get_rbac_roles, get_cluster_roles, get_events, get_resource_usage,
      switch_context, connect_to_gke, gcloud_login, get_current_context,
      kubectl_explain, get_api_resources, health_check, get_pod_events,
      check_pod_health, get_deployments, create_deployment, delete_resource,
      get_logs, port_forward, scale_deployment, check_tool_availability,
      helm_repo_setup, kubectl_top_stage, kubectl_top_text, failEnv]
  all_goals repeat' (first | split | dsimp only)
  all_goals first
    | exact errShape_mkErr _
    | (exfalso; simp_all)

/-! ## C1 -/

/-- C1: for every tool registered by `setup_tools` and every input, the result
is a dictionary with a `"success"` key bound to `True` or `False`, a `False`
success always comes with an `"error"` key, and in an environment where every
wrapped Kubernetes-client call or subprocess invocation raises (`failEnv`)
the tool does not propagate the exception but returns `"success": False`
together with an `"error"` message. -/
theorem C1_error_envelope (c : ToolCall) (env : Env) (st : ClusterSvc) :
    (lookupKey "success" (runTool c env st).1.res = some (Jval.jbool true) ∨
     (lookupKey "success" (runTool c env st).1.res = some (Jval.jbool false) ∧
      hasKey "error" (runTool c env st).1.res = true)) ∧
    (lookupKey "success" (runTool c failEnv st).1.res = some (Jval.jbool false) ∧
     hasKey "error" (runTool c failEnv st).1.res = true) :=
  ⟨goodRes_runTool c env st, errShape_runTool_failEnv c st⟩

/-! ## C2 -/

theorem trace_check_tool_availability (env : Env) (t : String) :
    (check_tool_availability env t).2.length ≤ 1 := by
  unfold check_tool_availability
  repeat' (first | split | dsimp only)
  all_goals decide

theorem trace_helm_repo_setup_error {env : Env} {repo : Option String}
    {chart : String} {res : List (String × Jval)} {tr : List Action}
    (h : helm_repo_setup env repo chart = Except.error (res, tr)) :
    tr.length ≤ 2 := by
  unfold helm_repo_setup at h
  repeat' (first | split at h | dsimp only at h)
  all_goals
    first
      | exact Except.noConfusion h
      | (injection h with h1; injection h1 with h2 h3; subst h3;
         simp only [List.length_cons, List.length_nil]; omega)

theorem trace_helm_repo_setup_ok {env : Env} {repo : Option String}
    {chart chart2 : String} {tr : List Action}
    (h : helm_repo_setup env repo chart = Except.ok (chart2, tr)) :
    tr.length ≤ 2 := by
  unfold helm_repo_setup at h
  repeat' (first | split at h | dsimp only at h)
  all_goals
    first
      | exact Except.noConfusion h
      | (injection h with h1; injection h1 with h2 h3; subst h3;
         simp only [List.length_cons, List.length_nil]; omega)

theorem trace_install_run (env : Env) (name chart nsp : String)
    (values : Option (List (String × Jval))) (tr : List Action) :
    (install_run env name chart nsp values tr).trace.length ≤ tr.length + 1 := by
  unfold install_run
  repeat' (first | split | dsimp only)
  all_goals try simp only [List.length_append, List.length_cons, List.length_nil]
  all_goals omega

theorem trace_upgrade_run (env : Env) (name chart nsp : String)
    (values : Option (List (String × Jval))) (tr : List Action) :
    (upgrade_run env name chart nsp values tr).trace.length ≤ tr.length + 1 := by
  unfold upgrade_run
  repeat' (first | split | dsimp only)
  all_goals try simp only [List.length_append, List.length_cons, List.length_nil]
  all_goals omega

theorem trace_helm_install_after_repo (env : Env) (name chart nsp : String)
    (values : Option (List (String × Jval))) (tr : List Action) :
    (helm_install_after_repo env name chart nsp values tr).trace.length ≤
      tr.length + 3 := by
  unfold helm_install_after_repo
  repeat' (first | split | dsimp only)
  · exact le_trans (trace_install_run _ _ _ _ _ _)
      (by simp only [List.length_append, List.length_cons, List.length_nil]; omega)
  · exact le_trans (trace_install_run _ _ _ _ _ _)
      (by simp only [List.length_append, List.length_cons, List.length_nil]; omega)
  all_goals try simp only [List.length_append, List.length_cons, List.length_nil]
  all_goals omega

theorem trace_kubectl_top_text_error {env : Env} {textCmd : List String}
    {tr0 : List Action} {res : List (String × Jval)} {tr : List Action}
    (h : kubectl_top_text env textCmd tr0 = Except.error (res, tr)) :
    tr.length ≤ tr0.length + 1 := by
  unfold kubectl_top_text at h
  repeat' (first | split at h | dsimp only at h)
  all_goals
    first
      | exact Except.noConfusion h
      | (injection h with h1; injection h1 with h2 h3; subst h3;
         (try simp only [List.length_append, List.length_cons, List.length_nil]); omega)

theorem trace_kubectl_top_text_ok {env : Env} {textCmd : List String}
    {tr0 : List Action} {v : Jval} {tr : List Action}
    (h : kubectl_top_text env textCmd tr0 = Except.ok (v, tr)) :
    tr.length ≤ tr0.length + 1 := by
  unfold kubectl_top_text at h
  repeat' (first | split at h | dsimp only at h)
  all_goals
    first
      | exact Except.noConfusion h
      | (injection h with h1; injection h1 with h2 h3; subst h3;
         (try simp only [List.length_append, List.length_cons, List.length_nil]); omega)

theorem trace_kubectl_top_stage_error {env : Env} {jsonCmd textCmd : List String}
    {res : List (String × Jval)} {tr : List Action}
    (h : kubectl_top_stage env jsonCmd textCmd = Except.error (res, tr)) :
    tr.length ≤ 2 := by
  unfold kubectl_top_stage at h
  repeat' (first | split at h | dsimp only at h)
  all_goals
    first
      | exact Except.noConfusion h
      | (exact le_trans (trace_kubectl_top_text_error h)
            (by simp only [List.length_cons, List.length_nil]; omega))
      | (injection h with h1; injection h1 with h2 h3; subst h3;
         simp only [List.length_cons, List.length_nil]; omega)

theorem trace_kubectl_top_stage_ok {env : Env} {jsonCmd textCmd : List String}
    {v : Jval} {tr : List Action}
    (h : kubectl_top_stage env jsonCmd textCmd = Except.ok (v, tr)) :
    tr.length ≤ 2 := by
  unfold kubectl_top_stage at h
  repeat' (first | split at h | dsimp only at h)
  all_goals
    first
      | exact Except.noConfusion h
      | (exact le_trans (trace_kubectl_top_text_ok h)
            (by simp only [List.length_cons, List.length_nil]; omega))
      | (injection h with h1; injection h1 with h2 h3; subst h3;
         simp only [List.length_cons, List.length_nil]; omega)

/-- C2 counterexample: `get_resource_usage`, in an environment where every
call succeeds, issues three external commands (the kubectl availability probe
and two `kubectl top` invocations), refuting "at most one Kubernetes API
request or one external command is issued per call". -/
theorem C2_counterexample :
    ¬ ((runTool (ToolCall.get_resource_usage none) okEnv []).1.trace.length ≤ 1) := by
  decide

theorem trace_install_helm_chart (env : Env) (name chart nsp : String)
    (repo : Option String) (values : Option (List (String × Jval))) :
    (install_helm_chart env name chart nsp repo values).trace.length ≤ 6 := by
  unfold install_helm_chart
  dsimp only
  split
  · exact le_trans (trace_check_tool_availability env "helm") (by omega)
  · split
    · rename_i res tr heq
      have h1 := trace_check_tool_availability env "helm"
      have h2 := trace_helm_repo_setup_error heq
      simp only [List.length_append]
      omega
    · rename_i chart2 tr heq
      have h1 := trace_check_tool_availability env "helm"
      have h2 := trace_helm_repo_setup_ok heq
      have h3 := trace_helm_install_after_repo env name chart2 nsp values
        ((check_tool_availability env "helm").2 ++ tr)
      simp only [List.length_append] at h3 ⊢
      omega

theorem trace_upgrade_helm_chart (env : Env) (name chart nsp : String)
    (repo : Option String) (values : Option (List (String × Jval))) :
    (upgrade_helm_chart env name chart nsp repo values).trace.length ≤ 6 := by
  unfold upgrade_helm_chart
  dsimp only
  split
  · exact le_trans (trace_check_tool_availability env "helm") (by omega)
  · split
    · rename_i res tr heq
      have h1 := trace_check_tool_availability env "helm"
      have h2 := trace_helm_repo_setup_error heq
      simp only [List.length_append]
      omega
    · rename_i chart2 tr heq
      have h1 := trace_check_tool_availability env "helm"
      have h2 := trace_helm_repo_setup_ok heq
      have h3 := trace_upgrade_run env name chart2 nsp values
        ((check_tool_availability env "helm").2 ++ tr)
      simp only [List.length_append] at h3 ⊢
      omega

theorem trace_get_resource_usage (env : Env) (ns : Option String) :
    (get_resource_usage env ns).trace.length ≤ 6 := by
  unfold get_resource_usage
  dsimp only
  split
  · exact le_trans (trace_check_tool_availability env "kubectl") (by omega)
  · split
    · rename_i res tr heq
      have h1 := trace_check_tool_availability env "kubectl"
      have h2 := trace_kubectl_top_stage_error heq
      simp only [List.length_append]
      omega
    · rename_i pod tr1 heq1
      split
      · rename_i res tr2 heq2
        have h1 := trace_check_tool_availability env "kubectl"
        have h2 := trace_kubectl_top_stage_ok heq1
        have h3 := trace_kubectl_top_stage_error heq2
        simp only [List.length_append]
        omega
      · rename_i node tr2 heq2
        have h1 := trace_check_tool_availability env "kubectl"
        have h2 := trace_kubectl_top_stage_ok heq1
        have h3 := trace_kubectl_top_stage_ok heq2
        simp only [List.length_append]
        omega

theorem trace_uninstall_helm_chart (env : Env) (name nsp : String) :
    (uninstall_helm_chart env name nsp).trace.length ≤ 6 := by
  unfold uninstall_helm_chart
  repeat' (first | split | dsimp only)
  all_goals
    have h1 := trace_check_tool_availability env "helm"
  all_goals try simp only [List.length_append, List.length_cons, List.length_nil]
  all_goals omega

set_option maxHeartbeats 1000000 in
/-- C2 (amended): each tool issues a bounded number of external calls — at
most six Kubernetes API requests or commands per invocation — but not always
at most one. -/
theorem C2_bounded_calls (c : ToolCall) (env : Env) (st : ClusterSvc) :
    (runTool c env st).1.trace.length ≤ 6 := by
  cases c <;> dsimp only [runTool] <;>
    first
      | exact trace_install_helm_chart env _ _ _ _ _
      | exact trace_upgrade_helm_chart env _ _ _ _ _
      | exact trace_get_resource_usage env _
      | exact trace_uninstall_helm_chart env _ _
      | (simp only [get_pods, get_namespaces, get_services, get_nodes,
           get_configmaps, get_secrets, get_rbac_roles, get_cluster_roles,
           get_events, switch_context, connect_to_gke, gcloud_login,
           get_current_context, kubectl_explain, get_api_resources, health_check,
           get_pod_events, check_pod_health, get_deployments, create_deployment,
           delete_resource, get_logs, port_forward, scale_deployment,
           expose_deployment_with_service]
         repeat' (first | split | dsimp only)
         all_goals try simp only [List.length_append, List.length_cons, List.length_nil]
         all_goals omega)

/-! ## C6 -/

/-- Whether an action is a detached process spawn (`subprocess.Popen`). -/
def Action.isSpawn : Action → Bool
  | Action.spawn _ => true
  | _ => false

/-- Every action in the trace waits for completion before the tool returns:
API requests and `check_output` / `run` invocations, but no `Popen`. -/
def syncOnly (t : List Action) : Bool :=
  t.all fun a => !a.isSpawn

/-- The only tool whose wrapped subprocess is started with `Popen`. -/
def ToolCall.isPortForward : ToolCall → Bool
  | ToolCall.port_forward _ _ _ _ => true
  | _ => false

theorem syncOnly_append (l1 l2 : List Action) :
    syncOnly (l1 ++ l2) = (syncOnly l1 && syncOnly l2) := by
  simp [syncOnly, List.all_append]

theorem syncOnly_check_tool_availability (env : Env) (t : String) :
    syncOnly (check_tool_availability env t).2 = true := by
  unfold check_tool_availability
  repeat' (first | split | dsimp only)
  all_goals rfl

theorem syncOnly_helm_repo_setup_error {env : Env} {repo : Option String}
    {chart : String} {res : List (String × Jval)} {tr : List Action}
    (h : helm_repo_setup env repo chart = Except.error (res, tr)) :
    syncOnly tr = true := by
  unfold helm_repo_setup at h
  repeat' (first | split at h | dsimp only at h)
  all_goals
    first
      | exact Except.noConfusion h
      | (injection h with h1; injection h1 with h2 h3; subst h3; rfl)

theorem syncOnly_helm_repo_setup_ok {env : Env} {repo : Option String}
    {chart chart2 : String} {tr : List Action}
    (h : helm_repo_setup env repo chart = Except.ok (chart2, tr)) :
    syncOnly tr = true := by
  unfold helm_repo_setup at h
  repeat' (first | split at h | dsimp only at h)
  all_goals
    first
      | exact Except.noConfusion h
      | (injection h with h1; injection h1 with h2 h3; subst h3; rfl)

theorem syncOnly_install_run (env : Env) (name chart nsp : String)
    (values : Option (List (String × Jval))) (tr : List Action)
    (h : syncOnly tr = true) :
    syncOnly (install_run env name chart nsp values tr).trace = true := by
  unfold install_run
  repeat' (first | split | dsimp only)
  all_goals simp_all [syncOnly, Action.isSpawn, List.all_append]

theorem syncOnly_upgrade_run (env : Env) (name chart nsp : String)
    (values : Option (List (String × Jval))) (tr : List Action)
    (h : syncOnly tr = true) :
    syncOnly (upgrade_run env name chart nsp values tr).trace = true := by
  unfold upgrade_run
  repeat' (first | split | dsimp only)
  all_goals simp_all [syncOnly, Action.isSpawn, List.all_append]

theorem syncOnly_helm_install_after_repo (env : Env) (name chart nsp : String)
    (values : Option (List (String × Jval))) (tr : List Action)
    (h : syncOnly tr = true) :
    syncOnly (helm_install_after_repo env name chart nsp values tr).trace = true := by
  unfold helm_install_after_repo
  repeat' (first | split | dsimp only)
  · exact syncOnly_install_run _ _ _ _ _ _
      (by simp_all [syncOnly, Action.isSpawn, List.all_append])
  · exact syncOnly_install_run _ _ _ _ _ _
      (by simp_all [syncOnly, Action.isSpawn, List.all_append])
  all_goals simp_all [syncOnly, Action.isSpawn, List.all_append]

theorem syncOnly_kubectl_top_text_error {env : Env} {textCmd : List String}
    {tr0 : List Action} {res : List (String × Jval)} {tr : List Action}
    (h : kubectl_top_text env textCmd tr0 = Except.error (res, tr))
    (h0 : syncOnly tr0 = true) :
    syncOnly tr = true := by
  unfold kubectl_top_text at h
  repeat' (first | split at h | dsimp only at h)
  all_goals
    first
      | exact Except.noConfusion h
      | (injection h with h1; injection h1 with h2 h3; subst h3;
         simp_all [syncOnly, Action.isSpawn, List.all_append])

theorem syncOnly_kubectl_top_text_ok {env : Env} {textCmd : List String}
    {tr0 : List Action} {v : Jval} {tr : List Action}
    (h : kubectl_top_text env textCmd tr0 = Except.ok (v, tr))
    (h0 : syncOnly tr0 = true) :
    syncOnly tr = true := by
  unfold kubectl_top_text at h
  repeat' (first | split at h | dsimp only at h)
  all_goals
    first
      | exact Except.noConfusion h
      | (injection h with h1; injection h1 with h2 h3; subst h3;
         simp_all [syncOnly, Action.isSpawn, List.all_append])

theorem syncOnly_kubectl_top_stage_error {env : Env} {jsonCmd textCmd : List String}
    {res : List (String × Jval)} {tr : List Action}
    (h : kubectl_top_stage env jsonCmd textCmd = Except.error (res, tr)) :
    syncOnly tr = true := by
  unfold kubectl_top_stage at h
  repeat' (first | split at h | dsimp only at h)
  all_goals
    first
      | exact Except.noConfusion h
      | (exact syncOnly_kubectl_top_text_error h rfl)
      | (injection h with h1; injection h1 with h2 h3; subst h3; rfl)

theorem syncOnly_kubectl_top_stage_ok {env : Env} {jsonCmd textCmd : List String}
    {v : Jval} {tr : List Action}
    (h : kubectl_top_stage env jsonCmd textCmd = Except.ok (v, tr)) :
    syncOnly tr = true := by
  unfold kubectl_top_stage at h
  repeat' (first | split at h | dsimp only at h)
  all_goals
    first
      | exact Except.noConfusion h
      | (exact syncOnly_kubectl_top_text_ok h rfl)
      | (injection h with h1; injection h1 with h2 h3; subst h3; rfl)

theorem syncOnly_install_helm_chart (env : Env) (name chart nsp : String)
    (repo : Option String) (values : Option (List (String × Jval))) :
    syncOnly (install_helm_chart env name chart nsp repo values).trace = true := by
  unfold install_helm_chart
  dsimp only
  split
  · exact syncOnly_check_tool_availability env "helm"
  · split
    · rename_i res tr heq
      rw [syncOnly_append, syncOnly_check_tool_availability,
        syncOnly_helm_repo_setup_error heq]
      rfl
    · rename_i chart2 tr heq
      refine syncOnly_helm_install_after_repo _ _ _ _ _ _ ?_
      rw [syncOnly_append, syncOnly_check_tool_availability,
        syncOnly_helm_repo_setup_ok heq]
      rfl

theorem syncOnly_upgrade_helm_chart (env : Env) (name chart nsp : String)
    (repo : Option String) (values : Option (List (String × Jval))) :
    syncOnly (upgrade_helm_chart env name chart nsp repo values).trace = true := by
  unfold upgrade_helm_chart
  dsimp only
  split
  · exact syncOnly_check_tool_availability env "helm"
  · split
    · rename_i res tr heq
      rw [syncOnly_append, syncOnly_check_tool_availability,
        syncOnly_helm_repo_setup_error heq]
      rfl
    · rename_i chart2 tr heq
      refine syncOnly_upgrade_run _ _ _ _ _ _ ?_
      rw [syncOnly_append, syncOnly_check_tool_availability,
        syncOnly_helm_repo_setup_ok heq]
      rfl

theorem syncOnly_get_resource_usage (env : Env) (ns : Option String) :
    syncOnly (get_resource_usage env ns).trace = true := by
  unfold get_resource_usage
  dsimp only
  split
  · exact syncOnly_check_tool_availability env "kubectl"
  · split
    · rename_i res tr heq
      rw [syncOnly_append, syncOnly_check_tool_availability,
        syncOnly_kubectl_top_stage_error heq]
      rfl
    · rename_i pod tr1 heq1
      split
      · rename_i res tr2 heq2
        rw [syncOnly_append, syncOnly_append, syncOnly_check_tool_availability,
          syncOnly_kubectl_top_stage_ok heq1, syncOnly_kubectl_top_stage_error heq2]
        rfl
      · rename_i node tr2 heq2
        rw [syncOnly_append, syncOnly_append, syncOnly_check_tool_availability,
          syncOnly_kubectl_top_stage_ok heq1, syncOnly_kubectl_top_stage_ok heq2]
        rfl

theorem syncOnly_uninstall_helm_chart (env : Env) (name nsp : String) :
    syncOnly (uninstall_helm_chart env name nsp).trace = true := by
  unfold uninstall_helm_chart
  repeat' (first | split | dsimp only)
  all_goals
    first
      | exact syncOnly_check_tool_availability env "helm"
      | (rw [syncOnly_append, syncOnly_check_tool_availability]; rfl)

/-- C6 counterexample: `port_forward` returns `"success": True` while its
`kubectl port-forward` subprocess was merely spawned with `subprocess.Popen`
(an `Action.spawn`), not waited for — so not every tool call blocks until the
wrapped CLI invocation has completed. -/
theorem C6_counterexample :
    lookupKey "success"
        (runTool (ToolCall.port_forward "web" 8080 80 "default") okEnv []).1.res =
      some (Jval.jbool true) ∧
    syncOnly (runTool (ToolCall.port_forward "web" 8080 80 "default") okEnv []).1.trace =
      false := by
  exact ⟨rfl, rfl⟩

/-- C6 (amended): every tool other than `port_forward` only performs blocking
call-outs — each traced action is a Kubernetes API request or a
`check_output`-style subprocess invocation that completes before the tool
returns; `port_forward` instead spawns a detached background process. -/
theorem C6_synchronous_except_port_forward (c : ToolCall) (env : Env)
    (st : ClusterSvc) (h : c.isPortForward = false) :
    syncOnly (runTool c env st).1.trace = true := by
  cases c <;> dsimp only [runTool] <;>
    first
      | exact Bool.noConfusion h
      | exact syncOnly_install_helm_chart env _ _ _ _ _
      | exact syncOnly_upgrade_helm_chart env _ _ _ _ _
      | exact syncOnly_get_resource_usage env _
      | exact syncOnly_uninstall_helm_chart env _ _
      | (simp only [get_pods, get_namespaces, get_services, get_nodes,
           get_configmaps, get_secrets, get_rbac_roles, get_cluster_roles,
           get_events, switch_context, connect_to_gke, gcloud_login,
           get_current_context, kubectl_explain, get_api_resources, health_check,
           get_pod_events, check_pod_health, get_deployments, create_deployment,
           delete_resource, get_logs, scale_deployment,
           expose_deployment_with_service]
         repeat' (first | split | dsimp only)
         all_goals rfl)

/-- Witness for C6 (amended) at a concrete non-`port_forward` tool call. -/
theorem C6_synchronous_witness :
    syncOnly (runTool ToolCall.get_namespaces okEnv []).1.trace = true :=
  C6_synchronous_except_port_forward ToolCall.get_namespaces okEnv [] rfl

/-! ## C7 -/

/-- C7: `switch_context` invokes exactly the command
`kubectl config use-context <context_name>` — every traced action is that one
command — and when the command succeeds it returns `"success": True` with a
message naming the new context. -/
theorem C7_switch_context (env : Env) (context_name : String) :
    (∀ a ∈ (switch_context env context_name).trace,
        a = Action.run ["kubectl", "config", "use-context", context_name]) ∧
    (∀ s, env.checkOutput ["kubectl", "config", "use-context", context_name] =
        CmdRes.ok s →
      (switch_context env context_name).res =
        mkOk [("message", Jval.jstr ("Switched context to " ++ context_name))] ∧
      (switch_context env context_name).trace =
        [Action.run ["kubectl", "config", "use-context", context_name]]) := by
  constructor
  · unfold switch_context
    repeat' (first | split | dsimp only)
    all_goals simp
  · intro s hs
    unfold switch_context
    dsimp only
    rw [hs]
    exact ⟨rfl, rfl⟩

/-- Witness for C7 at a concrete environment where the command succeeds. -/
theorem C7_switch_context_witness :
    (switch_context okEnv "prod").res =
      mkOk [("message", Jval.jstr ("Switched context to " ++ "prod"))] ∧
    (switch_context okEnv "prod").trace =
      [Action.run ["kubectl", "config", "use-context", "prod"]] :=
  (C7_switch_context okEnv "prod").2 "out" rfl

/-! ## C8 -/

/-- Whether an action is a Kubernetes delete request. -/
def Action.isDelete : Action → Bool
  | Action.api n _ =>
    n == "delete_namespaced_pod" || n == "delete_namespaced_deployment" ||
      n == "delete_namespaced_service"
  | _ => false

/-- Whether a trace contains a Kubernetes delete request. -/
def hasDeleteAction (t : List Action) : Bool :=
  t.any Action.isDelete

/-- C8: for every `resource_type` other than `"pod"`, `"deployment"` or
`"service"`, `delete_resource` returns `"success": False` with an
"Unsupported resource type" error and performs no deletion call; and a
deletion call can only be issued for those three resource types. -/
theorem C8_delete_resource (env : Env) (rt nm ns : String) :
    (rt ≠ "pod" → rt ≠ "deployment" → rt ≠ "service" →
      (env.load_kube_config = Except.ok () →
        (delete_resource env rt nm ns).res =
          mkErr ("Unsupported resource type: " ++ rt)) ∧
      hasDeleteAction (delete_resource env rt nm ns).trace = false) ∧
    (hasDeleteAction (delete_resource env rt nm ns).trace = true →
      rt = "pod" ∨ rt = "deployment" ∨ rt = "service") := by
  constructor
  · intro h1 h2 h3
    constructor
    · intro hl
      unfold delete_resource
      rw [hl]
      dsimp only
      rw [if_neg h1, if_neg h2, if_neg h3]
    · unfold delete_resource
      repeat' (first | split | dsimp only)
      all_goals simp_all [hasDeleteAction, Action.isDelete]
  · unfold delete_resource
    repeat' (first | split | dsimp only)
    all_goals intro hdel
    all_goals
      first
        | (left; assumption)
        | (right; left; assumption)
        | (right; right; assumption)
        | (exfalso; simp [hasDeleteAction, Action.isDelete] at hdel)

/-- Witness for C8 at the unsupported resource type `"namespace"`. -/
theorem C8_delete_resource_witness :
    (delete_resource okEnv "namespace" "n" "default").res =
      mkErr ("Unsupported resource type: " ++ "namespace") ∧
    hasDeleteAction (delete_resource okEnv "namespace" "n" "default").trace = false :=
  ⟨((C8_delete_resource okEnv "namespace" "n" "default").1 (by decide) (by decide)
      (by decide)).1 rfl,
   ((C8_delete_resource okEnv "namespace" "n" "default").1 (by decide) (by decide)
      (by decide)).2⟩

/-! ## C3 and C4: service-state lemmas -/

theorem lookupSvc_append_right (st : ClusterSvc) (k : Option String × Option String)
    (v : Service) (h : lookupSvc st k = none) :
    lookupSvc (st ++ [(k, v)]) k = some v := by
  induction st with
  | nil => simp [lookupSvc]
  | cons kv rest ih =>
    obtain ⟨k2, s⟩ := kv
    simp only [lookupSvc, List.cons_append] at h ⊢
    split at h
    · exact Option.noConfusion h
    · rename_i hne
      rw [if_neg hne]
      exact ih h

theorem replaceSvc_lookup_none (st : ClusterSvc) (k : Option String × Option String)
    (v : Service) (h : lookupSvc st k = none) :
    replaceSvc st k v = st := by
  induction st with
  | nil => rfl
  | cons kv rest ih =>
    obtain ⟨k2, s⟩ := kv
    simp only [lookupSvc] at h
    split at h
    · exact Option.noConfusion h
    · rename_i hne
      simp only [replaceSvc, if_neg hne]
      rw [ih h]

theorem lookupSvc_replaceSvc_some (st : ClusterSvc) (k : Option String × Option String)
    (v : Service) (s0 : Service) (h : lookupSvc st k = some s0) :
    lookupSvc (replaceSvc st k v) k = some v := by
  induction st with
  | nil => exact Option.noConfusion h
  | cons kv rest ih =>
    obtain ⟨k2, s⟩ := kv
    simp only [lookupSvc] at h
    by_cases hk : k2 = k
    · have hrw : replaceSvc ((k2, s) :: rest) k v = (k, v) :: replaceSvc rest k v := by
        simp only [replaceSvc, if_pos hk]
      rw [hrw]
      simp [lookupSvc]
    · have hrw : replaceSvc ((k2, s) :: rest) k v = (k2, s) :: replaceSvc rest k v := by
        simp only [replaceSvc, if_neg hk]
      rw [if_neg hk] at h
      rw [hrw]
      simp only [lookupSvc]
      rw [if_neg hk]
      exact ih h

theorem replaceSvc_replaceSvc (st : ClusterSvc) (k : Option String × Option String)
    (v : Service) :
    replaceSvc (replaceSvc st k v) k v = replaceSvc st k v := by
  induction st with
  | nil => rfl
  | cons kv rest ih =>
    obtain ⟨k2, s⟩ := kv
    by_cases hk : k2 = k
    · have hrw : replaceSvc ((k2, s) :: rest) k v = (k, v) :: replaceSvc rest k v := by
        simp only [replaceSvc, if_pos hk]
      rw [hrw]
      have hrw2 : replaceSvc ((k, v) :: replaceSvc rest k v) k v =
          (k, v) :: replaceSvc (replaceSvc rest k v) k v := by
        simp [replaceSvc]
      rw [hrw2, ih]
    · have hrw : replaceSvc ((k2, s) :: rest) k v = (k2, s) :: replaceSvc rest k v := by
        simp only [replaceSvc, if_neg hk]
      rw [hrw]
      have hrw2 : replaceSvc ((k2, s) :: replaceSvc rest k v) k v =
          (k2, s) :: replaceSvc (replaceSvc rest k v) k v := by
        simp only [replaceSvc, if_neg hk]
      rw [hrw2, ih]

theorem replaceSvc_append (l1 l2 : ClusterSvc) (k : Option String × Option String)
    (v : Service) :
    replaceSvc (l1 ++ l2) k v = replaceSvc l1 k v ++ replaceSvc l2 k v := by
  induction l1 with
  | nil => rfl
  | cons kv rest ih =>
    obtain ⟨k2, s⟩ := kv
    simp only [List.cons_append, replaceSvc, List.append_eq, ih]

/-- The selector-label determination of `expose_deployment_with_service`
(source lines 166-186), as the labels it settles on when it succeeds. -/
def exposeSel (sel : Option Labels) (dep : DeployObj) : Option Labels :=
  match sel with
  | some l => some l
  | none =>
    match dep.match_labels with
    | none => none
    | some l => if l.isEmpty then none else some l

theorem expose_run_create (env : Env) (st : ClusterSvc)
    (dn sn : Option String) (tp : Option Int) (proto : String)
    (sty ns : Option String) (p : Option Int) (sel : Option Labels)
    (dep : DeployObj) (lsel : Labels)
    (hload : env.load_kube_config = Except.ok ())
    (hdep : env.read_namespaced_deployment dn ns = Except.ok dep)
    (hfault : env.read_service_fault = none)
    (hdet : exposeSel sel dep = some lsel)
    (hlook : lookupSvc st (ns, sn) = none) :
    expose_deployment_with_service env st dn sn tp proto sty ns p sel =
      (⟨expose_success_res dn sn sty
          (expose_service_body dn sn tp proto sty ns p lsel),
        [Action.api "read_namespaced_deployment" [optStr dn, optStr ns],
         Action.api "read_namespaced_service" [optStr sn, optStr ns],
         Action.api "create_namespaced_service" [optStr sn, optStr ns]]⟩,
       st ++ [((ns, sn), expose_service_body dn sn tp proto sty ns p lsel)]) := by
  unfold expose_deployment_with_service
  rw [hload, hdep]
  dsimp only
  unfold exposeSel at hdet
  unfold read_namespaced_service_st
  rw [hfault]
  cases sel with
  | some l =>
    injection hdet with hdet
    subst hdet
    dsimp only
    unfold create_namespaced_service_st
    dsimp only [expose_service_body]
    rw [hlook]
    all_goals rfl
  | none =>
    cases hml : dep.match_labels with
    | none =>
      rw [hml] at hdet
      dsimp only at hdet
      exact Option.noConfusion hdet
    | some l =>
      rw [hml] at hdet
      dsimp only at hdet
      dsimp only
      split at hdet
      · exact Option.noConfusion hdet
      · rename_i hne
        injection hdet with hdet
        subst hdet
        rw [if_neg hne]
        dsimp only
        unfold create_namespaced_service_st
        dsimp only [expose_service_body]
        rw [hlook]
        all_goals rfl

theorem expose_run_patch (env : Env) (st : ClusterSvc)
    (dn sn : Option String) (tp : Option Int) (proto : String)
    (sty ns : Option String) (p : Option Int) (sel : Option Labels)
    (dep : DeployObj) (lsel : Labels) (s0 : Service)
    (hload : env.load_kube_config = Except.ok ())
    (hdep : env.read_namespaced_deployment dn ns = Except.ok dep)
    (hfault : env.read_service_fault = none)
    (hdet : exposeSel sel dep = some lsel)
    (hlook : lookupSvc st (ns, sn) = some s0) :
    expose_deployment_with_service env st dn sn tp proto sty ns p sel =
      (⟨expose_success_res dn sn sty
          (expose_service_body dn sn tp proto sty ns p lsel),
        [Action.api "read_namespaced_deployment" [optStr dn, optStr ns],
         Action.api "read_namespaced_service" [optStr sn, optStr ns],
         Action.api "patch_namespaced_service" [optStr sn, optStr ns]]⟩,
       replaceSvc st (ns, sn) (expose_service_body dn sn tp proto sty ns p lsel)) := by
  unfold expose_deployment_with_service
  rw [hload, hdep]
  dsimp only
  unfold exposeSel at hdet
  unfold read_namespaced_service_st
  rw [hfault]
  cases sel with
  | some l =>
    injection hdet with hdet
    subst hdet
    dsimp only
    unfold patch_namespaced_service_st
    dsimp only [expose_service_body]
    rw [hlook]
  | none =>
    cases hml : dep.match_labels with
    | none =>
      rw [hml] at hdet
      dsimp only at hdet
      exact Option.noConfusion hdet
    | some l =>
      rw [hml] at hdet
      dsimp only at hdet
      dsimp only
      split at hdet
      · exact Option.noConfusion hdet
      · rename_i hne
        injection hdet with hdet
        subst hdet
        rw [if_neg hne]
        dsimp only
        unfold patch_namespaced_service_st
        dsimp only [expose_service_body]
        rw [hlook]

/-- C3: with `selector_labels = None`, the Service body created or patched by
`expose_deployment_with_service` carries exactly the Deployment's
`spec.selector.match_labels` as its selector; a Deployment without such
labels yields `"success": False` with a "Failed to determine selector labels"
error, and a missing Deployment (API status 404) yields `"success": False`
with a "not found" error. -/
theorem C3_selector_inference (env : Env) (st : ClusterSvc)
    (dn sn : Option String) (tp : Option Int) (proto : String)
    (sty ns : Option String) (p : Option Int)
    (hload : env.load_kube_config = Except.ok ()) :
    (∀ dep l, env.read_namespaced_deployment dn ns = Except.ok dep →
      dep.match_labels = some l → l ≠ [] → env.read_service_fault = none →
      lookupKey "success"
          (expose_deployment_with_service env st dn sn tp proto sty ns p none).1.res =
        some (Jval.jbool true) ∧
      ∃ svc, lookupSvc
            (expose_deployment_with_service env st dn sn tp proto sty ns p none).2
            (ns, sn) = some svc ∧
          svc.selector = l) ∧
    (∀ dep, env.read_namespaced_deployment dn ns = Except.ok dep →
      labelsFalsy dep.match_labels = true →
      (expose_deployment_with_service env st dn sn tp proto sty ns p none).1.res =
        mkErr ("Failed to determine selector labels: " ++ noSelectorMsg dn)) ∧
    (∀ e, env.read_namespaced_deployment dn ns = Except.error e → e.status = 404 →
      (expose_deployment_with_service env st dn sn tp proto sty ns p none).1.res =
        mkErr ("Deployment '" ++ optStr dn ++ "' not found in namespace '" ++
          optStr ns ++ "'.")) := by
  refine ⟨?_, ?_, ?_⟩
  · intro dep l hdep hml hne hfault
    have hdet : exposeSel none dep = some l := by
      cases l with
      | nil => exact absurd rfl hne
      | cons a as => simp [exposeSel, hml, List.isEmpty]
    cases hlook : lookupSvc st (ns, sn) with
    | none =>
      rw [expose_run_create env st dn sn tp proto sty ns p none dep l hload hdep
        hfault hdet hlook]
      refine ⟨rfl, expose_service_body dn sn tp proto sty ns p l, ?_, rfl⟩
      exact lookupSvc_append_right st (ns, sn) _ hlook
    | some s0 =>
      rw [expose_run_patch env st dn sn tp proto sty ns p none dep l s0 hload hdep
        hfault hdet hlook]
      refine ⟨rfl, expose_service_body dn sn tp proto sty ns p l, ?_, rfl⟩
      exact lookupSvc_replaceSvc_some st (ns, sn) _ s0 hlook
  · intro dep hdep hfal
    unfold expose_deployment_with_service
    rw [hload, hdep]
    dsimp only
    cases hml : dep.match_labels with
    | none => rfl
    | some l =>
      rw [hml] at hfal
      have hemp : l.isEmpty = true := hfal
      dsimp only
      rw [if_pos hemp]
  · intro e hdep h404
    unfold expose_deployment_with_service
    rw [hload, hdep]
    dsimp only
    rw [if_pos h404]

/-- An environment whose Deployment read returns no selector labels. -/
def labelFreeEnv : Env :=
  { okEnv with read_namespaced_deployment := fun _ _ => Except.ok ⟨none, some 1⟩ }

/-- An environment whose Deployment read raises `ApiException(404)`. -/
def missingDeployEnv : Env :=
  { okEnv with read_namespaced_deployment := fun _ _ =>
      Except.error ⟨404, "Not Found", "deployment not found"⟩ }

/-- Witness for C3 at concrete environments covering all three branches. -/
theorem C3_selector_inference_witness :
    (∃ svc, lookupSvc (expose_deployment_with_service okEnv [] (some "web")
          (some "web-svc") (some 80) "TCP" (some "ClusterIP") (some "default")
          none none).2 (some "default", some "web-svc") = some svc ∧
        svc.selector = [("app", "demo")]) ∧
    (expose_deployment_with_service labelFreeEnv [] (some "web") (some "web-svc")
        (some 80) "TCP" (some "ClusterIP") (some "default") none none).1.res =
      mkErr ("Failed to determine selector labels: " ++ noSelectorMsg (some "web")) ∧
    (expose_deployment_with_service missingDeployEnv [] (some "web") (some "web-svc")
        (some 80) "TCP" (some "ClusterIP") (some "default") none none).1.res =
      mkErr ("Deployment '" ++ optStr (some "web") ++ "' not found in namespace '" ++
        optStr (some "default") ++ "'.") :=
  ⟨((C3_selector_inference okEnv [] (some "web") (some "web-svc") (some 80) "TCP"
      (some "ClusterIP") (some "default") none rfl).1
      ⟨some [("app", "demo")], some 1⟩ [("app", "demo")] rfl rfl (by decide) rfl).2,
   (C3_selector_inference labelFreeEnv [] (some "web") (some "web-svc") (some 80)
      "TCP" (some "ClusterIP") (some "default") none rfl).2.1
      ⟨none, some 1⟩ rfl rfl,
   (C3_selector_inference missingDeployEnv [] (some "web") (some "web-svc") (some 80)
      "TCP" (some "ClusterIP") (some "default") none rfl).2.2
      ⟨404, "Not Found", "deployment not found"⟩ rfl rfl⟩

/-- C4: under a readable Deployment and a successful selector determination,
`expose_deployment_with_service` creates the Service when it is absent and
patches it when present, returns `"success": True` in both cases, and running
the tool twice with the same arguments leaves the same service state as
running it once. -/
theorem C4_expose_idempotent (env : Env) (st : ClusterSvc)
    (dn sn : Option String) (tp : Option Int) (proto : String)
    (sty ns : Option String) (p : Option Int) (sel : Option Labels)
    (dep : DeployObj) (lsel : Labels)
    (hload : env.load_kube_config = Except.ok ())
    (hfault : env.read_service_fault = none)
    (hdep : env.read_namespaced_deployment dn ns = Except.ok dep)
    (hdet : exposeSel sel dep = some lsel) :
    lookupKey "success"
        (expose_deployment_with_service env st dn sn tp proto sty ns p sel).1.res =
      some (Jval.jbool true) ∧
    lookupKey "success"
        (expose_deployment_with_service env
          (expose_deployment_with_service env st dn sn tp proto sty ns p sel).2
          dn sn tp proto sty ns p sel).1.res = some (Jval.jbool true) ∧
    (expose_deployment_with_service env
        (expose_deployment_with_service env st dn sn tp proto sty ns p sel).2
        dn sn tp proto sty ns p sel).2 =
      (expose_deployment_with_service env st dn sn tp proto sty ns p sel).2 ∧
    (lookupSvc st (ns, sn) = none →
      (expose_deployment_with_service env st dn sn tp proto sty ns p sel).1.trace =
        [Action.api "read_namespaced_deployment" [optStr dn, optStr ns],
         Action.api "read_namespaced_service" [optStr sn, optStr ns],
         Action.api "create_namespaced_service" [optStr sn, optStr ns]]) ∧
    (∀ s0, lookupSvc st (ns, sn) = some s0 →
      (expose_deployment_with_service env st dn sn tp proto sty ns p sel).1.trace =
        [Action.api "read_namespaced_deployment" [optStr dn, optStr ns],
         Action.api "read_namespaced_service" [optStr sn, optStr ns],
         Action.api "patch_namespaced_service" [optStr sn, optStr ns]]) := by
  cases hlook : lookupSvc st (ns, sn) with
  | none =>
    have e1 := expose_run_create env st dn sn tp proto sty ns p sel dep lsel hload
      hdep hfault hdet hlook
    have hlook2 : lookupSvc (st ++ [((ns, sn),
        expose_service_body dn sn tp proto sty ns p lsel)]) (ns, sn) =
        some (expose_service_body dn sn tp proto sty ns p lsel) :=
      lookupSvc_append_right st (ns, sn) _ hlook
    have e2 := expose_run_patch env
      (st ++ [((ns, sn), expose_service_body dn sn tp proto sty ns p lsel)])
      dn sn tp proto sty ns p sel dep lsel _ hload hdep hfault hdet hlook2
    rw [e1]
    dsimp only
    rw [e2]
    refine ⟨rfl, rfl, ?_, fun _ => rfl, fun s0 h => ?_⟩
    · dsimp only
      rw [replaceSvc_append st [((ns, sn), expose_service_body dn sn tp proto sty ns p lsel)]
        (ns, sn) (expose_service_body dn sn tp proto sty ns p lsel)]
      rw [replaceSvc_lookup_none st (ns, sn) _ hlook]
      have : replaceSvc [((ns, sn), expose_service_body dn sn tp proto sty ns p lsel)]
          (ns, sn) (expose_service_body dn sn tp proto sty ns p lsel) =
          [((ns, sn), expose_service_body dn sn tp proto sty ns p lsel)] := by
        simp [replaceSvc]
      rw [this]
    · exact Option.noConfusion h
  | some s0 =>
    have e1 := expose_run_patch env st dn sn tp proto sty ns p sel dep lsel s0 hload
      hdep hfault hdet hlook
    have hlook2 : lookupSvc (replaceSvc st (ns, sn)
        (expose_service_body dn sn tp proto sty ns p lsel)) (ns, sn) =
        some (expose_service_body dn sn tp proto sty ns p lsel) :=
      lookupSvc_replaceSvc_some st (ns, sn) _ s0 hlook
    have e2 := expose_run_patch env
      (replaceSvc st (ns, sn) (expose_service_body dn sn tp proto sty ns p lsel))
      dn sn tp proto sty ns p sel dep lsel _ hload hdep hfault hdet hlook2
    rw [e1]
    dsimp only
    rw [e2]
    refine ⟨rfl, rfl, ?_, fun h => ?_, fun _ _ => rfl⟩
    · dsimp only
      exact replaceSvc_replaceSvc st (ns, sn) _
    · exact Option.noConfusion h

/-- Witness for C4 at a concrete environment, starting from the empty
service state. -/
theorem C4_expose_idempotent_witness :
    lookupKey "success" (expose_deployment_with_service okEnv [] (some "web")
        (some "web-svc") (some 80) "TCP" (some "ClusterIP") (some "default")
        none none).1.res = some (Jval.jbool true) ∧
    (expose_deployment_with_service okEnv
        (expose_deployment_with_service okEnv [] (some "web") (some "web-svc")
          (some 80) "TCP" (some "ClusterIP") (some "default") none none).2
        (some "web") (some "web-svc") (some 80) "TCP" (some "ClusterIP")
        (some "default") none none).2 =
      (expose_deployment_with_service okEnv [] (some "web") (some "web-svc")
        (some 80) "TCP" (some "ClusterIP") (some "default") none none).2 :=
  ⟨(C4_expose_idempotent okEnv [] (some "web") (some "web-svc") (some 80) "TCP"
      (some "ClusterIP") (some "default") none none
      ⟨some [("app", "demo")], some 1⟩ [("app", "demo")] rfl rfl rfl rfl).1,
   (C4_expose_idempotent okEnv [] (some "web") (some "web-svc") (some 80) "TCP"
      (some "ClusterIP") (some "default") none none
      ⟨some [("app", "demo")], some 1⟩ [("app", "demo")] rfl rfl rfl rfl).2.2.1⟩

/-! ## C5 -/

/-- C5: `get_resource_usage` first runs `kubectl top ... -o json`; when that
command fails or its output is not valid JSON it falls back to re-running the
command without `-o json` and returns the raw text under `"text_output"`,
still with `"success": True`; the fallback applies independently to the pod
stage and the node stage. -/
theorem C5_top_json_fallback (env : Env) (ns : Option String) (s0 : String)
    (hw : env.whichFound "kubectl" = true)
    (hver : env.checkOutput ["kubectl", "version", "--client"] = CmdRes.ok s0) :
    (∀ t o2 v,
      ((∃ e, env.checkOutput (pod_json_cmd ns) = CmdRes.fail e) ∨
       (∃ o, env.checkOutput (pod_json_cmd ns) = CmdRes.ok o ∧
          env.json_loads o = none)) →
      env.checkOutput (pod_text_cmd ns) = CmdRes.ok t →
      env.checkOutput node_json_cmd = CmdRes.ok o2 →
      env.json_loads o2 = some v →
      (get_resource_usage env ns).res =
        mkOk [("pod_usage", Jval.jobj [("text_output", Jval.jstr t)]),
              ("node_usage", v)] ∧
      (get_resource_usage env ns).trace =
        [Action.run ["kubectl", "version", "--client"], Action.run (pod_json_cmd ns),
         Action.run (pod_text_cmd ns), Action.run node_json_cmd]) ∧
    (∀ o1 v1 t2,
      env.checkOutput (pod_json_cmd ns) = CmdRes.ok o1 →
      env.json_loads o1 = some v1 →
      ((∃ e, env.checkOutput node_json_cmd = CmdRes.fail e) ∨
       (∃ o, env.checkOutput node_json_cmd = CmdRes.ok o ∧
          env.json_loads o = none)) →
      env.checkOutput node_text_cmd = CmdRes.ok t2 →
      (get_resource_usage env ns).res =
        mkOk [("pod_usage", v1),
              ("node_usage", Jval.jobj [("text_output", Jval.jstr t2)])] ∧
      (get_resource_usage env ns).trace =
        [Action.run ["kubectl", "version", "--client"], Action.run (pod_json_cmd ns),
         Action.run node_json_cmd, Action.run node_text_cmd]) := by
  have havail : check_tool_availability env "kubectl" =
      (true, [Action.run ["kubectl", "version", "--client"]]) := by
    simp [check_tool_availability, hw, hver]
  constructor
  · intro t o2 v hpod hpt hnj hnvl
    have hstage1 : kubectl_top_stage env (pod_json_cmd ns) (pod_text_cmd ns) =
        Except.ok (Jval.jobj [("text_output", Jval.jstr t)],
          [Action.run (pod_json_cmd ns), Action.run (pod_text_cmd ns)]) := by
      rcases hpod with ⟨e, he⟩ | ⟨o, ho, hbad⟩
      · unfold kubectl_top_stage
        rw [he]
        unfold kubectl_top_text
        rw [hpt]
        rfl
      · unfold kubectl_top_stage
        rw [ho]
        dsimp only
        rw [hbad]
        unfold kubectl_top_text
        rw [hpt]
        rfl
    have hstage2 : kubectl_top_stage env node_json_cmd node_text_cmd =
        Except.ok (v, [Action.run node_json_cmd]) := by
      unfold kubectl_top_stage
      rw [hnj]
      dsimp only
      rw [hnvl]
    unfold get_resource_usage
    rw [havail]
    dsimp only
    rw [hstage1]
    dsimp only
    rw [hstage2]
    exact ⟨rfl, rfl⟩
  · intro o1 v1 t2 hpj hpv hnode hnt
    have hstage1 : kubectl_top_stage env (pod_json_cmd ns) (pod_text_cmd ns) =
        Except.ok (v1, [Action.run (pod_json_cmd ns)]) := by
      unfold kubectl_top_stage
      rw [hpj]
      dsimp only
      rw [hpv]
    have hstage2 : kubectl_top_stage env node_json_cmd node_text_cmd =
        Except.ok (Jval.jobj [("text_output", Jval.jstr t2)],
          [Action.run node_json_cmd, Action.run node_text_cmd]) := by
      rcases hnode with ⟨e, he⟩ | ⟨o, ho, hbad⟩
      · unfold kubectl_top_stage
        rw [he]
        unfold kubectl_top_text
        rw [hnt]
        rfl
      · unfold kubectl_top_stage
        rw [ho]
        dsimp only
        rw [hbad]
        unfold kubectl_top_text
        rw [hnt]
        rfl
    unfold get_resource_usage
    rw [havail]
    dsimp only
    rw [hstage1]
    dsimp only
    rw [hstage2]
    exact ⟨rfl, rfl⟩

/-- An environment in which only `kubectl top pods ... -o json` fails. -/
def podFallbackEnv : Env :=
  { okEnv with
      checkOutput := fun cmd =>
        if cmd = pod_json_cmd none then CmdRes.fail "error: unknown flag: -o"
        else CmdRes.ok "{}"
      json_loads := fun s => if s = "{}" then some (Jval.jobj []) else none }

/-- An environment in which only `kubectl top nodes ... -o json` fails. -/
def nodeFallbackEnv : Env :=
  { okEnv with
      checkOutput := fun cmd =>
        if cmd = node_json_cmd then CmdRes.fail "error: unknown flag: -o"
        else CmdRes.ok "{}"
      json_loads := fun s => if s = "{}" then some (Jval.jobj []) else none }

/-- Witness for C5 at concrete environments exercising both fallbacks. -/
theorem C5_top_json_fallback_witness :
    (get_resource_usage podFallbackEnv none).res =
      mkOk [("pod_usage", Jval.jobj [("text_output", Jval.jstr "{}")]),
            ("node_usage", Jval.jobj [])] ∧
    (get_resource_usage nodeFallbackEnv none).res =
      mkOk [("pod_usage", Jval.jobj []),
            ("node_usage", Jval.jobj [("text_output", Jval.jstr "{}")])] :=
  ⟨((C5_top_json_fallback podFallbackEnv none "{}" rfl rfl).1 "{}" "{}"
      (Jval.jobj []) (Or.inl ⟨"error: unknown flag: -o", rfl⟩) rfl rfl rfl).1,
   ((C5_top_json_fallback nodeFallbackEnv none "{}" rfl rfl).2 "{}" (Jval.jobj [])
      "{}" rfl rfl (Or.inl ⟨"error: unknown flag: -o", rfl⟩) rfl).1⟩

/-! ## C9 -/

/-- C9 counterexample: with `helm` available, an invalid repo argument does
produce the "Repository format" error, but only after the `helm version`
availability probe has already run — the trace is not empty, so the error is
not returned "before running any command". -/
theorem C9_counterexample :
    (install_helm_chart okEnv "rel" "chart" "default" (some "badrepo") none).res =
      mkErr "Repository format should be 'repo_name=repo_url'" ∧
    (install_helm_chart okEnv "rel" "chart" "default" (some "badrepo") none).trace =
      [Action.run ["helm", "version"]] ∧
    (install_helm_chart okEnv "rel" "chart" "default" (some "badrepo") none).trace ≠
      [] := by
  refine ⟨rfl, rfl, ?_⟩
  intro h
  simp only [install_helm_chart, check_tool_availability, helm_repo_setup, okEnv] at h
  exact List.noConfusion h

/-- C9 (amended): in `install_helm_chart` and `upgrade_helm_chart`, a
provided non-empty repo that does not split on '=' into exactly two parts
yields `"success": False` with the error "Repository format should be
'repo_name=repo_url'" before any repo, namespace or helm install/upgrade
command — the only command run is the `helm version` availability probe; and
with a valid repo and a chart containing no '/', the chart passed to the
final helm command is prefixed with `<repo_name>/`. -/
theorem C9_repo_validation (env : Env) (name chart nsp : String) (r : String)
    (values : Option (List (String × Jval))) (s0 : String)
    (hw : env.whichFound "helm" = true)
    (hver : env.checkOutput ["helm", "version"] = CmdRes.ok s0) :
    (r ≠ "" → (pySplitEq r).length ≠ 2 →
      (install_helm_chart env name chart nsp (some r) values).res =
        mkErr "Repository format should be 'repo_name=repo_url'" ∧
      (install_helm_chart env name chart nsp (some r) values).trace =
        [Action.run ["helm", "version"]] ∧
      (upgrade_helm_chart env name chart nsp (some r) values).res =
        mkErr "Repository format should be 'repo_name=repo_url'" ∧
      (upgrade_helm_chart env name chart nsp (some r) values).trace =
        [Action.run ["helm", "version"]]) ∧
    (∀ rn ru s1 s2 s3 s4 s5, pySplitEq r = [rn, ru] →
      pyContainsSlash chart = false →
      env.checkOutput ["helm", "repo", "add", rn, ru] = CmdRes.ok s1 →
      env.checkOutput ["helm", "repo", "update"] = CmdRes.ok s2 →
      env.checkOutput ["kubectl", "get", "namespace", nsp] = CmdRes.ok s3 →
      env.checkOutput (helm_install_cmd env name (rn ++ "/" ++ chart) nsp values) =
        CmdRes.ok s4 →
      env.checkOutput (helm_upgrade_cmd env name (rn ++ "/" ++ chart) nsp values) =
        CmdRes.ok s5 →
      (install_helm_chart env name chart nsp (some r) values).trace =
        [Action.run ["helm", "version"],
         Action.run ["helm", "repo", "add", rn, ru],
         Action.run ["helm", "repo", "update"],
         Action.run ["kubectl", "get", "namespace", nsp],
         Action.run (helm_install_cmd env name (rn ++ "/" ++ chart) nsp values)] ∧
      (upgrade_helm_chart env name chart nsp (some r) values).trace =
        [Action.run ["helm", "version"],
         Action.run ["helm", "repo", "add", rn, ru],
         Action.run ["helm", "repo", "update"],
         Action.run (helm_upgrade_cmd env name (rn ++ "/" ++ chart) nsp values)]) := by
  have havail : check_tool_availability env "helm" =
      (true, [Action.run ["helm", "version"]]) := by
    simp [check_tool_availability, hw, hver]
  constructor
  · intro hr hlen
    have htr : truthy? (some r) = some r := by simp [truthy?, hr]
    have hsetup : helm_repo_setup env (some r) chart =
        Except.error (mkErr "Repository format should be 'repo_name=repo_url'", []) := by
      unfold helm_repo_setup
      rw [htr]
      dsimp only
      cases hp : pySplitEq r with
      | nil => rfl
      | cons a t =>
        cases t with
        | nil => rfl
        | cons b t2 =>
          cases t2 with
          | nil => exact absurd (by rw [hp]; rfl) hlen
          | cons c t3 => rfl
    refine ⟨?_, ?_, ?_, ?_⟩ <;>
      simp [install_helm_chart, upgrade_helm_chart, havail, hsetup]
  · intro rn ru s1 s2 s3 s4 s5 hp hsl hadd hupd hget hins hupg
    have hr : r ≠ "" := by
      intro h0
      subst h0
      have : pySplitEq "" = [""] := rfl
      rw [this] at hp
      simp at hp
    have htr : truthy? (some r) = some r := by simp [truthy?, hr]
    have hsetup : helm_repo_setup env (some r) chart =
        Except.ok (rn ++ "/" ++ chart,
          [Action.run ["helm", "repo", "add", rn, ru],
           Action.run ["helm", "repo", "update"]]) := by
      unfold helm_repo_setup
      rw [htr]
      dsimp only
      rw [hp]
      dsimp only
      rw [hadd]
      dsimp only
      rw [hupd]
      dsimp only
      rw [hsl]
      rfl
    constructor
    · unfold install_helm_chart
      rw [havail]
      dsimp only
      rw [if_neg (by decide : ¬(true = false))]
      rw [hsetup]
      dsimp only
      unfold helm_install_after_repo
      dsimp only
      rw [hget]
      dsimp only
      unfold install_run
      dsimp only
      rw [hins]
      rfl
    · unfold upgrade_helm_chart
      rw [havail]
      dsimp only
      rw [if_neg (by decide : ¬(true = false))]
      rw [hsetup]
      dsimp only
      unfold upgrade_run
      dsimp only
      rw [hupg]
      rfl

/-- Witness for C9 (amended) at a concrete environment exercising both the
invalid-repo error and the chart-qualification path. -/
theorem C9_repo_validation_witness :
    (install_helm_chart okEnv "rel" "chart" "default" (some "badrepo") none).res =
      mkErr "Repository format should be 'repo_name=repo_url'" ∧
    (install_helm_chart okEnv "rel" "chart" "default" (some "bitnami=https://x") none).trace =
      [Action.run ["helm", "version"],
       Action.run ["helm", "repo", "add", "bitnami", "https://x"],
       Action.run ["helm", "repo", "update"],
       Action.run ["kubectl", "get", "namespace", "default"],
       Action.run (helm_install_cmd okEnv "rel" ("bitnami" ++ "/" ++ "chart")
         "default" none)] :=
  ⟨((C9_repo_validation okEnv "rel" "chart" "default" "badrepo" none "out" rfl
      rfl).1 (by decide) (by decide)).1,
   (((C9_repo_validation okEnv "rel" "chart" "default" "bitnami=https://x" none
      "out" rfl rfl).2 "bitnami" "https://x" "out" "out" "out" "out" "out"
      (by decide) (by decide) rfl rfl rfl rfl rfl).1)⟩

/-! ## C10 -/

/-- Whether an action is a `helm ...` command invocation. -/
def isHelmCmd : Action → Bool
  | Action.run ("helm" :: _) => true
  | _ => false

theorem helmOnly_check_tool_availability (env : Env) :
    ((check_tool_availability env "helm").2.all isHelmCmd) = true := by
  unfold check_tool_availability
  repeat' (first | split | dsimp only)
  all_goals first | rfl | (exfalso; simp_all)

theorem helmOnly_helm_repo_setup_error {env : Env} {repo : Option String}
    {chart : String} {res : List (String × Jval)} {tr : List Action}
    (h : helm_repo_setup env repo chart = Except.error (res, tr)) :
    tr.all isHelmCmd = true := by
  unfold helm_repo_setup at h
  repeat' (first | split at h | dsimp only at h)
  all_goals
    first
      | exact Except.noConfusion h
      | (injection h with h1; injection h1 with h2 h3; subst h3; rfl)

theorem helmOnly_helm_repo_setup_ok {env : Env} {repo : Option String}
    {chart chart2 : String} {tr : List Action}
    (h : helm_repo_setup env repo chart = Except.ok (chart2, tr)) :
    tr.all isHelmCmd = true := by
  unfold helm_repo_setup at h
  repeat' (first | split at h | dsimp only at h)
  all_goals
    first
      | exact Except.noConfusion h
      | (injection h with h1; injection h1 with h2 h3; subst h3; rfl)

theorem helmOnly_upgrade_run (env : Env) (name chart nsp : String)
    (values : Option (List (String × Jval))) (tr : List Action)
    (h : tr.all isHelmCmd = true) :
    ((upgrade_run env name chart nsp values tr).trace.all isHelmCmd) = true := by
  unfold upgrade_run
  repeat' (first | split | dsimp only)
  all_goals
    simp_all [List.all_append, List.cons_append, isHelmCmd, helm_upgrade_cmd]

/-- C10: `install_helm_chart` checks the target namespace with
`kubectl get namespace` before running `helm install` and, when that check
fails, creates it with `kubectl create namespace` first; `upgrade_helm_chart`
runs only `helm` commands — no namespace check or creation. -/
theorem C10_namespace_handling (env : Env) (name chart nsp : String)
    (repo : Option String) (values : Option (List (String × Jval))) :
    (∀ s0 chart2 tr s1 s4,
      env.whichFound "helm" = true →
      env.checkOutput ["helm", "version"] = CmdRes.ok s0 →
      helm_repo_setup env repo chart = Except.ok (chart2, tr) →
      env.checkOutput ["kubectl", "get", "namespace", nsp] = CmdRes.ok s1 →
      env.checkOutput (helm_install_cmd env name chart2 nsp values) = CmdRes.ok s4 →
      (install_helm_chart env name chart nsp repo values).trace =
        [Action.run ["helm", "version"]] ++ tr ++
          [Action.run ["kubectl", "get", "namespace", nsp],
           Action.run (helm_install_cmd env name chart2 nsp values)]) ∧
    (∀ s0 chart2 tr e s2 s4,
      env.whichFound "helm" = true →
      env.checkOutput ["helm", "version"] = CmdRes.ok s0 →
      helm_repo_setup env repo chart = Except.ok (chart2, tr) →
      env.checkOutput ["kubectl", "get", "namespace", nsp] = CmdRes.fail e →
      env.checkOutput ["kubectl", "create", "namespace", nsp] = CmdRes.ok s2 →
      env.checkOutput (helm_install_cmd env name chart2 nsp values) = CmdRes.ok s4 →
      (install_helm_chart env name chart nsp repo values).trace =
        [Action.run ["helm", "version"]] ++ tr ++
          [Action.run ["kubectl", "get", "namespace", nsp],
           Action.run ["kubectl", "create", "namespace", nsp],
           Action.run (helm_install_cmd env name chart2 nsp values)]) ∧
    ((upgrade_helm_chart env name chart nsp repo values).trace.all isHelmCmd = true) := by
  refine ⟨?_, ?_, ?_⟩
  · intro s0 chart2 tr s1 s4 hw hver hsetup hget hins
    have havail : check_tool_availability env "helm" =
        (true, [Action.run ["helm", "version"]]) := by
      simp [check_tool_availability, hw, hver]
    unfold install_helm_chart
    rw [havail]
    dsimp only
    rw [if_neg (by decide : ¬(true = false))]
    rw [hsetup]
    dsimp only
    unfold helm_install_after_repo
    dsimp only
    rw [hget]
    dsimp only
    unfold install_run
    dsimp only
    rw [hins]
    simp
  · intro s0 chart2 tr e s2 s4 hw hver hsetup hget hcreate hins
    have havail : check_tool_availability env "helm" =
        (true, [Action.run ["helm", "version"]]) := by
      simp [check_tool_availability, hw, hver]
    unfold install_helm_chart
    rw [havail]
    dsimp only
    rw [if_neg (by decide : ¬(true = false))]
    rw [hsetup]
    dsimp only
    unfold helm_install_after_repo
    dsimp only
    rw [hget]
    dsimp only
    rw [hcreate]
    dsimp only
    unfold install_run
    dsimp only
    rw [hins]
    simp
  · unfold upgrade_helm_chart
    dsimp only
    split
    · exact helmOnly_check_tool_availability env
    · split
      · rename_i res tr heq
        rw [List.all_append, helmOnly_check_tool_availability,
          helmOnly_helm_repo_setup_error heq]
        rfl
      · rename_i chart2 tr heq
        refine helmOnly_upgrade_run _ _ _ _ _ _ ?_
        rw [List.all_append, helmOnly_check_tool_availability,
          helmOnly_helm_repo_setup_ok heq]
        rfl

/-- An environment in which the target namespace does not exist yet. -/
def nsMissingEnv : Env :=
  { okEnv with checkOutput := fun cmd =>
      if cmd = ["kubectl", "get", "namespace", "default"] then
        CmdRes.fail "Error from server (NotFound)"
      else CmdRes.ok "out" }

/-- Witness for C10 at concrete environments: the namespace check precedes
`helm install`, the namespace is created when the check fails, and upgrade
runs only helm commands. -/
theorem C10_namespace_handling_witness :
    (install_helm_chart okEnv "rel" "chart" "default" none none).trace =
      [Action.run ["helm", "version"]] ++ [] ++
        [Action.run ["kubectl", "get", "namespace", "default"],
         Action.run (helm_install_cmd okEnv "rel" "chart" "default" none)] ∧
    (install_helm_chart nsMissingEnv "rel" "chart" "default" none none).trace =
      [Action.run ["helm", "version"]] ++ [] ++
        [Action.run ["kubectl", "get", "namespace", "default"],
         Action.run ["kubectl", "create", "namespace", "default"],
         Action.run (helm_install_cmd nsMissingEnv "rel" "chart" "default" none)] ∧
    ((upgrade_helm_chart okEnv "rel" "chart" "default" none none).trace.all
      isHelmCmd = true) :=
  ⟨(C10_namespace_handling okEnv "rel" "chart" "default" none none).1 "out" "chart"
     [] "out" "out" rfl rfl rfl rfl rfl,
   (C10_namespace_handling nsMissingEnv "rel" "chart" "default" none none).2.1 "out"
     "chart" [] "Error from server (NotFound)" "out" "out" rfl rfl rfl rfl rfl rfl,
   (C10_namespace_handling okEnv "rel" "chart" "default" none none).2.2⟩

end KubectlMcp
